import Mathlib

/-!
Verification of the bulk CSV import pipeline of the myDevices CLI.

The development shallowly embeds the relevant parts of the repository:
  * `src/lib/csv-parser.ts`   — delimiter auto-detection;
  * `src/lib/column-mapper.ts` — mapping validation;
  * `src/lib/bulk-import.ts`  — row transformation, location-path building,
    depth sorting, and the main `bulkImport` reconciliation loop;
  * the `bulk import` command action — the exit-code policy.

Network I/O is modelled by an `Env` record holding the fixed remote state
(the path-to-location map produced by `fetchExistingLocations`, the template
lookup, the registry contents) together with deterministic oracles for the
outcome of each mutating call (`Except` values, `.error` modelling a thrown
request).  The sequence of outgoing calls is recorded in a trace so that
"no call is issued" claims are expressible.

JavaScript truthiness of the values that the source code tests with
`if (x)` / `x || y` is modelled explicitly (`jsTruthyS`, `intOptTruthy`,
`jsOr`): for strings only `undefined` and `""` are falsy, for numbers only
`0` is falsy.
-/

namespace MD

/-! ## JS-semantics helpers -/

instance {ε α : Type} [DecidableEq ε] [DecidableEq α] : DecidableEq (Except ε α) :=
  fun x y =>
    match x, y with
    | .ok a, .ok b =>
        if h : a = b then isTrue (by rw [h]) else isFalse (by simp [h])
    | .error a, .error b =>
        if h : a = b then isTrue (by rw [h]) else isFalse (by simp [h])
    | .ok _, .error _ => isFalse (by simp)
    | .error _, .ok _ => isFalse (by simp)

/-- Association-list lookup, modelling `Map.get` / object indexing. -/
def alookup {α : Type} : List (String × α) → String → Option α
  | [], _ => none
  | (k, v) :: rest, key => if k = key then some v else alookup rest key

/-- Position-preserving insert-or-replace, modelling `Map.set` /
`obj[key] = value` on a JS object. -/
def aupsert {α : Type} : List (String × α) → String → α → List (String × α)
  | [], k, v => [(k, v)]
  | (k', v') :: rest, k, v =>
      if k' = k then (k, v) :: rest else (k', v') :: aupsert rest k v

/-- Truthiness of a possibly-undefined JS string: `undefined` and `""` are
falsy, everything else truthy. -/
def jsTruthyS : Option String → Bool
  | none => false
  | some s => s != ""

/-- Truthiness of a possibly-undefined JS number: only `0` is falsy here
(the embedding has no `NaN`). -/
def intOptTruthy : Option Int → Bool
  | none => false
  | some v => v != 0

/-- JS `a || b` on possibly-undefined strings. -/
def jsOr (a b : Option String) : Option String :=
  if jsTruthyS a then a else b

/-- Whitespace for `String.prototype.trim`, restricted to the ASCII
whitespace characters relevant to CSV cells. -/
def isJsSpace (c : Char) : Bool :=
  c = ' ' || c = '\t' || c = '\n' || c = '\r'

/-- `value.trim()`, defined structurally on the character list so that the
kernel can evaluate it on concrete inputs. -/
def jsTrim (s : String) : String :=
  String.mk (((s.data.dropWhile isJsSpace).reverse.dropWhile isJsSpace).reverse)

/-! ## CSV delimiter detection (`src/lib/csv-parser.ts`, `detectDelimiter`) -/

/-- The candidate delimiters, in the order the source iterates them. -/
def csvDelimiters : List Char := [',', ';', '\t', '|']

/-- Number of occurrences of a candidate delimiter in the header line
(`firstLine.match(new RegExp(...,'g')).length` counts the occurrences of a
single character). -/
def delimCount (firstLine : String) (c : Char) : Nat :=
  firstLine.data.count c

/-- `detectDelimiter` from `src/lib/csv-parser.ts`: fold with
`maxCount = 0`, `detected = ','`, updating only on a strictly larger count. -/
def detectDelimiter (firstLine : String) : Char :=
  (csvDelimiters.foldl
    (fun (acc : Nat × Char) delim =>
      let count := delimCount firstLine delim
      if count > acc.1 then (count, delim) else acc)
    (0, ',')).2

/-- The fold of `detectDelimiter` written out over the four candidates, a
closed form used to reason about the detection result. -/
def detect4 (n1 n2 n3 n4 : Nat) : Nat × Char :=
  let a1 : Nat × Char := if n1 > 0 then (n1, ',') else (0, ',')
  let a2 := if n2 > a1.1 then (n2, ';') else a1
  let a3 := if n3 > a2.1 then (n3, '\t') else a2
  if n4 > a3.1 then (n4, '|') else a3

/-! ## Column mapping (`src/lib/column-mapper.ts`) -/

/-- A column's mapping value: `null` (skip), a single target string, or an
array of target strings. -/
inductive MapTarget where
  | skip
  | single (t : String)
  | multi (ts : List String)
deriving DecidableEq

/-- `ColumnMapping`: CSV column name to mapping value, in insertion order
(`Object.entries` iterates string keys in insertion order). -/
abbrev ColumnMapping := List (String × MapTarget)

/-- `HierarchyMapping`: hierarchy columns, shallowest level first. -/
structure HierarchyMapping where
  columns : List String
deriving DecidableEq

/-- `Object.values(mappings).filter(Boolean).flatMap(v => Array.isArray(v) ? v : [v])`:
`null` and `""` are falsy and dropped; an array (even an empty one) is truthy
and spread. -/
def mappedFields (mappings : ColumnMapping) : List String :=
  mappings.foldr
    (fun kv acc =>
      match kv.2 with
      | .skip => acc
      | .single t => if t = "" then acc else t :: acc
      | .multi ts => ts ++ acc)
    []

/-- Result of `validateMapping`. -/
structure ValidationResult where
  valid : Bool
  errors : List String
deriving DecidableEq

/-- `validateMapping` from `src/lib/column-mapper.ts` (lines 347-376):
device requirements apply only when some device field is mapped; at least
one hierarchy level is always required. -/
def validateMapping (mappings : ColumnMapping) (hierarchy : HierarchyMapping) :
    ValidationResult :=
  let fields := mappedFields mappings
  let hasDeviceFields := fields.any (fun f => f.startsWith "device.")
  let devErrors :=
    if hasDeviceFields then
      (if fields.contains "device.hardware_id" then []
       else ["device.hardware_id is required when mapping device fields"]) ++
      (if fields.contains "device.sensor_type" || fields.contains "device.device_type_id" then []
       else ["Missing required mapping: device.sensor_type (or map device.device_type_id to auto-fill from template)"])
    else []
  let errors := devErrors ++
    (if hierarchy.columns.isEmpty then ["At least one location hierarchy level is required"] else [])
  { valid := errors.isEmpty, errors := errors }

/-! ## Row transformation (`src/lib/bulk-import.ts`, `transformRows`) -/

/-- One hierarchy level of a parsed row. -/
structure HierarchyLevel where
  columnName : String
  value : String
deriving DecidableEq

/-- The location attribute bag of a parsed row; a `none` field models a key
that was never assigned on the JS object. -/
structure LocationMeta where
  external_id : Option String := none
  address : Option String := none
  city : Option String := none
  state : Option String := none
  country : Option String := none
  zip : Option String := none
  timezone : Option String := none
  industry : Option String := none
deriving DecidableEq

/-- The device attribute bag of a parsed row. -/
structure DeviceFields where
  hardware_id : Option String := none
  name : Option String := none
  external_id : Option String := none
  device_type_id : Option String := none
  sensor_use : Option String := none
  sensor_type : Option String := none
  device_category : Option String := none
  metadata : Option (List (String × String)) := none
deriving DecidableEq

/-- `ParsedRow`. -/
structure ParsedRow where
  rowNumber : Nat
  locationHierarchy : List HierarchyLevel
  locationMeta : LocationMeta := {}
  device : DeviceFields := {}
deriving DecidableEq

/-- A raw CSV row: header name to raw cell string (`Record<string, string>`);
a missing key models `undefined`. -/
abbrev CsvRow := List (String × String)

/-- `row[columnName]?.trim()` being blank: `undefined` or trimming to `""`. -/
def blankAt (row : CsvRow) (col : String) : Bool :=
  match alookup row col with
  | none => true
  | some v => jsTrim v = ""

/-- The hierarchy-building loop of `transformRows` (lines 162-167): walk the
hierarchy columns in order, stop at the first missing/blank trimmed value. -/
def buildHierarchy (row : CsvRow) : List String → List HierarchyLevel
  | [] => []
  | c :: rest =>
      match alookup row c with
      | none => []
      | some raw =>
          let v := jsTrim raw
          if v = "" then [] else ⟨c, v⟩ :: buildHierarchy row rest

/-- Assign one `location.<attr>` field.  `TARGET_FIELDS` only offers the
eight attributes below; other keys written through the untyped cast are
never read downstream and are modelled as no-ops. -/
def setLocationMetaField (m : LocationMeta) (field value : String) : LocationMeta :=
  if field = "external_id" then { m with external_id := some value }
  else if field = "address" then { m with address := some value }
  else if field = "city" then { m with city := some value }
  else if field = "state" then { m with state := some value }
  else if field = "country" then { m with country := some value }
  else if field = "zip" then { m with zip := some value }
  else if field = "timezone" then { m with timezone := some value }
  else if field = "industry" then { m with industry := some value }
  else m

/-- Assign one `device.<attr>` field (same remark as for location fields). -/
def setDeviceField (d : DeviceFields) (field value : String) : DeviceFields :=
  if field = "hardware_id" then { d with hardware_id := some value }
  else if field = "name" then { d with name := some value }
  else if field = "external_id" then { d with external_id := some value }
  else if field = "device_type_id" then { d with device_type_id := some value }
  else if field = "sensor_use" then { d with sensor_use := some value }
  else if field = "sensor_type" then { d with sensor_type := some value }
  else if field = "device_category" then { d with device_category := some value }
  else d

/-- Route one target string (`target.startsWith(...)` dispatch of
`transformRows`).  Since the target is known to start with the tested
literal, `replace(first-occurrence)` equals dropping the literal length. -/
def applyTarget (p : ParsedRow) (target value : String) : ParsedRow :=
  if target = "location.hierarchy" then p
  else if target.startsWith "location." then
    { p with locationMeta := setLocationMetaField p.locationMeta (target.drop 9) value }
  else if target.startsWith "device.metadata." then
    { p with device := { p.device with
        metadata := some (aupsert (p.device.metadata.getD []) (target.drop 16) value) } }
  else if target.startsWith "device." then
    { p with device := setDeviceField p.device (target.drop 7) value }
  else p

/-- Apply every target of one mapped column to the row value, skipping
missing/blank values. -/
def applyColumn (p : ParsedRow) (row : CsvRow) (col : String)
    (targets : List String) : ParsedRow :=
  match alookup row col with
  | none => p
  | some raw =>
      let v := jsTrim raw
      if v = "" then p else targets.foldl (fun p t => applyTarget p t v) p

/-- Transform one CSV row (`transformRows` body; `index` is the 0-based row
index, `rowNumber = index + 2`). -/
def transformRow (mappings : ColumnMapping) (hcols : List String)
    (index : Nat) (row : CsvRow) : ParsedRow :=
  let p0 : ParsedRow :=
    { rowNumber := index + 2, locationHierarchy := buildHierarchy row hcols }
  mappings.foldl
    (fun p kv =>
      match kv.2 with
      | .skip => p
      | .single t =>
          if t = "" || t = "location.hierarchy" then p
          else applyColumn p row kv.1 [t]
      | .multi ts => applyColumn p row kv.1 ts)
    p0

/-- Auxiliary recursion carrying the 0-based index. -/
def transformRowsAux (mappings : ColumnMapping) (hcols : List String) :
    Nat → List CsvRow → List ParsedRow
  | _, [] => []
  | i, r :: rs =>
      transformRow mappings hcols i r :: transformRowsAux mappings hcols (i + 1) rs

/-- `transformRows` from `src/lib/bulk-import.ts` (lines 149-198). -/
def transformRows (rows : List CsvRow) (mappings : ColumnMapping)
    (hierarchy : HierarchyMapping) : List ParsedRow :=
  transformRowsAux mappings hierarchy.columns 0 rows

/-! ## Location path building (`src/lib/bulk-import.ts`, `buildLocationPaths`) -/

/-- A distinct point of the aggregate hierarchy tree. -/
structure LocationNode where
  path : String
  name : String
  parentPath : Option String
  meta : Option LocationMeta
deriving DecidableEq

/-- `formatLocationName` (line 212). -/
def formatLocationName (level : HierarchyLevel) (prefixColumnName : Bool) : String :=
  if prefixColumnName then level.columnName ++ " " ++ level.value else level.value

/-- `currentPath ? currentPath + '/' + name : name` — the path accumulator
step, with `""` playing the role of the initial falsy accumulator. -/
def stepPath (path name : String) : String :=
  if path = "" then name else path ++ "/" ++ name

/-- Whether a path is already a key of the node list (`locations.has(path)`).
The list mirrors the JS `Map` in insertion order; keys are the node paths. -/
def pathMem (ns : List LocationNode) (p : String) : Bool :=
  ns.any (fun n => n.path = p)

/-- The inner per-row loop of `buildLocationPaths` (lines 222-239): walk the
levels accumulating the path, inserting a node for each new path; `meta` is
set only when the level is the deepest of this row. -/
def addLevels (pcn : Bool) (meta : LocationMeta) (currentPath : String)
    (ns : List LocationNode) : List HierarchyLevel → List LocationNode
  | [] => ns
  | level :: rest =>
      let name := formatLocationName level pcn
      let parentPath : Option String := if currentPath = "" then none else some currentPath
      let newPath := stepPath currentPath name
      let ns' :=
        if pathMem ns newPath then ns
        else ns ++ [{ path := newPath, name := name, parentPath := parentPath,
                      meta := if rest.isEmpty then some meta else none }]
      addLevels pcn meta newPath ns' rest

/-- `buildLocationPaths` (lines 216-243); rows with an empty hierarchy are
skipped. -/
def buildLocationPaths (rows : List ParsedRow) (prefixColumnName : Bool) :
    List LocationNode :=
  rows.foldl
    (fun ns row =>
      if row.locationHierarchy.isEmpty then ns
      else addLevels prefixColumnName row.locationMeta "" ns row.locationHierarchy)
    []

/-- `path.split('/').length`: for a one-character separator this is the
number of `'/'` characters plus one. -/
def pathDepth (p : String) : Nat :=
  p.data.count '/' + 1

/-- Stable insertion of a node after every node of smaller or equal depth,
the stable-sort behaviour of `Array.prototype.sort` on the comparator
`depthA - depthB`. -/
def insertByDepth (n : LocationNode) : List LocationNode → List LocationNode
  | [] => [n]
  | m :: ms =>
      if pathDepth m.path ≤ pathDepth n.path then m :: insertByDepth n ms
      else n :: m :: ms

/-- `sortLocationsByDepth` (lines 248-257): map entries in insertion order,
stably sorted by path depth ascending. -/
def sortLocationsByDepth (ns : List LocationNode) : List LocationNode :=
  ns.foldl (fun acc n => insertByDepth n acc) []

/-- `getDeepestLocationPath` (lines 671-680). -/
def getDeepestLocationPath (row : ParsedRow) (prefixColumnName : Bool) :
    Option String :=
  if row.locationHierarchy.isEmpty then none
  else some (row.locationHierarchy.foldl
    (fun p level => stepPath p (formatLocationName level prefixColumnName)) "")

/-! ## The merged location-create payload (lines 789-795) -/

/-- Operator-supplied location defaults (`LocationDefaults` of
`src/lib/column-mapper.ts`). -/
structure LocationDefaults where
  address : Option String := none
  city : Option String := none
  state : Option String := none
  country : Option String := none
  zip : Option String := none
  industry : Option String := none
deriving DecidableEq

/-- The argument record handed to `createLocation`. -/
structure LocationCreateData where
  name : String
  external_id : Option String := none
  address : Option String := none
  city : Option String := none
  state : Option String := none
  country : Option String := none
  zip : Option String := none
  timezone : Option String := none
  industry : Option String := none
deriving DecidableEq

/-- A field of the spread `{ ...locationDefaults, ...node.meta }`: the meta
value wins exactly when its key is present on the meta object. -/
def mergeField (metaV defV : Option String) : Option String :=
  match metaV with
  | some v => some v
  | none => defV

/-- `const locationData = { name: node.name, ...locationDefaults, ...node.meta }`
(lines 790-794).  `node.meta` may be absent (spread of `undefined` is a
no-op); `LocationDefaults` has no `external_id`/`timezone` keys. -/
def mergeLocationData (name : String) (d : LocationDefaults)
    (meta : Option LocationMeta) : LocationCreateData :=
  match meta with
  | none =>
      { name := name, address := d.address, city := d.city, state := d.state,
        country := d.country, zip := d.zip, industry := d.industry }
  | some m =>
      { name := name,
        external_id := m.external_id,
        address := mergeField m.address d.address,
        city := mergeField m.city d.city,
        state := mergeField m.state d.state,
        country := mergeField m.country d.country,
        zip := mergeField m.zip d.zip,
        timezone := m.timezone,
        industry := mergeField m.industry d.industry }

/-! ## The import engine (`bulkImport`, lines 685-933) -/

/-- Template-derived fallback fields (`TemplateInfo`); the embedding treats
`fetchTemplates`-plus-`extractTemplateInfo` as one oracle since no claim
concerns the extraction itself. -/
structure TemplateInfo where
  device_category : Option String := none
  sensor_type : Option String := none
  sensor_use : Option String := none
deriving DecidableEq

/-- The body handed to `apiPost` by `createDevice` (lines 596-631). -/
structure DevicePayload where
  user_id : Option String
  application_id : String
  company_id : Option Nat
  location_id : Option Int
  hardware_id : Option String
  name : Option String
  sensor_use : Option String
  sensor_type : Option String
  device_category : Option String
  external_id : Option String
  metadata : Option (List (String × String))
deriving DecidableEq

/-- One outgoing remote call.  `createLoc` records the merged
`locationData` and the parent id; marshalling inside
`createLocation`/`createDevice` down to HTTP is the collaborator boundary. -/
inductive ApiCall where
  | getLocations (userId : Option String)
  | createLoc (data : LocationCreateData) (parentId : Option Int)
      (userId : Option String) (companyId : Option Nat)
  | getTemplate (templateId : String)
  | getRegistry (hardwareIds : List String)
  | createDev (payload : DevicePayload)
  | updateDev (deviceId : Int) (userId : Option String)
      (properties : List (String × String))
deriving DecidableEq

/-- The fixed remote state plus deterministic outcomes for the mutating
calls; the k-th location create (resp. device create, device update) of a
run gets outcome `createLoc k` (resp. `createDev k`, `updateDev k`), a
`.error` modelling a thrown request. -/
structure Env where
  clientId : String
  existingLocations : List (String × Int)
  templates : String → Option TemplateInfo
  registry : List (String × String)
  createLoc : Nat → Except String Int
  createDev : Nat → Except String (Int × List (String × String))
  updateDev : Nat → Except String Unit

/-- The options record of `bulkImport`. -/
structure ImportOptions where
  userId : Option String := none
  companyId : Option Nat := none
  dryRun : Bool := false
  locationDefaults : LocationDefaults := {}
  deviceTypeId : Option String := none
  deviceSettings : List (String × String) := []
  prefixLocationName : Bool := true

/-- `ImportResult` (lines 96-104). -/
inductive ResultType where
  | location
  | device
deriving DecidableEq

/-- The `action` field of an `ImportResult`. -/
inductive ResultAction where
  | created
  | matched
  | updated
  | failed
deriving DecidableEq

/-- One outcome record. -/
structure ImportResult where
  success : Bool
  row : Nat
  type : ResultType
  action : ResultAction
  name : String
  id : Option Int
  error : Option String
deriving DecidableEq

/-- The evolving state of one `bulkImport` invocation: the summary counters
and result list, the `path -> id` map, the call counters for the outcome
oracles, and the trace of outgoing calls. -/
structure ImportState where
  idMap : List (String × Int)
  locCreateCalls : Nat
  devCreateCalls : Nat
  devUpdateCalls : Nat
  locationsCreated : Nat
  locationsMatched : Nat
  locationsFailed : Nat
  devicesCreated : Nat
  devicesMatched : Nat
  devicesFailed : Nat
  results : List ImportResult
  trace : List ApiCall
deriving DecidableEq

/-- The failed result recorded when a parent path cannot be resolved
(lines 761-770). -/
def failedParentResult (n : LocationNode) : ImportResult :=
  { success := false, row := 0, type := .location, action := .failed,
    name := n.name, id := none,
    error := some ("Parent location not found for path: " ++ n.parentPath.getD "") }

/-- The matched result (lines 745-752). -/
def matchedResult (n : LocationNode) (exId : Int) : ImportResult :=
  { success := true, row := 0, type := .location, action := .matched,
    name := n.name, id := some exId, error := none }

/-- The dry-run created result (lines 775-783). -/
def dryCreatedResult (n : LocationNode) : ImportResult :=
  { success := true, row := 0, type := .location, action := .created,
    name := n.name, id := none, error := none }

/-- The created result of a successful create call (lines 797-805). -/
def createdResult (n : LocationNode) (newId : Int) : ImportResult :=
  { success := true, row := 0, type := .location, action := .created,
    name := n.name, id := some newId, error := none }

/-- The failed result of a rejected create call (lines 806-816). -/
def createErrorResult (n : LocationNode) (msg : String) : ImportResult :=
  { success := false, row := 0, type := .location, action := .failed,
    name := n.name, id := none, error := some msg }

/-- The parent resolution `locationIdMap.get(node.parentPath) || null`
followed by the `if (!parentId)` check (lines 757-771): `none` means the
failure branch is taken, `some pid` means proceed with parent `pid`. -/
def parentLookup (st : ImportState) (node : LocationNode) : Option (Option Int) :=
  match node.parentPath with
  | none => some none
  | some pp =>
      match alookup st.idMap pp with
      | some v => if v = 0 then none else some (some v)
      | none => none

/-- One iteration of the location loop (lines 737-817). -/
def stepLocation (env : Env) (opts : ImportOptions) (st : ImportState)
    (node : LocationNode) : ImportState :=
  match alookup env.existingLocations node.path with
  | some exId =>
      { st with idMap := aupsert st.idMap node.path exId,
                locationsMatched := st.locationsMatched + 1,
                results := st.results ++ [matchedResult node exId] }
  | none =>
      match parentLookup st node with
      | none =>
          { st with locationsFailed := st.locationsFailed + 1,
                    results := st.results ++ [failedParentResult node] }
      | some parentId =>
          if opts.dryRun then
            { st with locationsCreated := st.locationsCreated + 1,
                      results := st.results ++ [dryCreatedResult node],
                      idMap := aupsert st.idMap node.path (-1) }
          else
            let payload := mergeLocationData node.name opts.locationDefaults node.meta
            let st1 := { st with
              trace := st.trace ++
                [ApiCall.createLoc payload parentId opts.userId opts.companyId],
              locCreateCalls := st.locCreateCalls + 1 }
            match env.createLoc st.locCreateCalls with
            | .ok newId =>
                { st1 with idMap := aupsert st1.idMap node.path newId,
                           locationsCreated := st1.locationsCreated + 1,
                           results := st1.results ++ [createdResult node newId] }
            | .error msg =>
                { st1 with locationsFailed := st1.locationsFailed + 1,
                           results := st1.results ++ [createErrorResult node msg] }

/-- The location loop over the depth-sorted nodes. -/
def runLocations (env : Env) (opts : ImportOptions) (st : ImportState)
    (nodes : List LocationNode) : ImportState :=
  nodes.foldl (stepLocation env opts) st

/-- `row.device.name || row.device.hardware_id` used as the result name. -/
def deviceResultName (r : ParsedRow) : String :=
  (jsOr r.device.name r.device.hardware_id).getD ""

/-- The failed result when the deepest path has no resolved id
(lines 855-866). -/
def deviceLocFailResult (row : ParsedRow) (path : String) : ImportResult :=
  { success := false, row := row.rowNumber, type := .device, action := .failed,
    name := deviceResultName row, id := none,
    error := some ("Location not found for path: " ++ path) }

/-- The dry-run created result for a device row (lines 869-879). -/
def deviceDryCreatedResult (row : ParsedRow) : ImportResult :=
  { success := true, row := row.rowNumber, type := .device, action := .created,
    name := deviceResultName row, id := none, error := none }

/-- The created result of a device row (lines 909-918); `err` carries the
settings-update warning when the follow-up update failed (lines 896-904). -/
def deviceCreatedResult (row : ParsedRow) (devId : Int) (err : Option String) :
    ImportResult :=
  { success := true, row := row.rowNumber, type := .device, action := .created,
    name := deviceResultName row, id := some devId, error := err }

/-- The failed result of a rejected device create call (lines 919-929). -/
def deviceCreateErrorResult (row : ParsedRow) (msg : String) : ImportResult :=
  { success := false, row := row.rowNumber, type := .device, action := .failed,
    name := deviceResultName row, id := none, error := some msg }

/-- The body of `createDevice` (lines 596-631): row values win over
template-derived fallbacks; metadata only when present and non-empty. -/
def mkDevicePayload (clientId : String) (userId : Option String)
    (companyId : Option Nat) (locationId : Option Int)
    (d : DeviceFields) (tinfo : Option TemplateInfo) : DevicePayload :=
  let tUse := match tinfo with | none => none | some t => t.sensor_use
  let tType := match tinfo with | none => none | some t => t.sensor_type
  let tCat := match tinfo with | none => none | some t => t.device_category
  { user_id := jsOr userId (some clientId),
    application_id := clientId,
    company_id := companyId,
    location_id := locationId,
    hardware_id := d.hardware_id,
    name := jsOr d.name d.hardware_id,
    sensor_use := jsOr d.sensor_use tUse,
    sensor_type := jsOr d.sensor_type tType,
    device_category := jsOr d.device_category tCat,
    external_id := d.external_id,
    metadata := match d.metadata with
      | none => none
      | some m => if m.isEmpty then none else some m }

/-- One iteration of the device loop (lines 841-930). -/
def stepDevice (env : Env) (opts : ImportOptions)
    (templateMap : List (String × TemplateInfo)) (st : ImportState)
    (row : ParsedRow) : ImportState :=
  if ¬ jsTruthyS row.device.hardware_id then st
  else
    let locationPath := getDeepestLocationPath row opts.prefixLocationName
    let locationId : Option Int :=
      if jsTruthyS locationPath then alookup st.idMap (locationPath.getD "") else none
    if jsTruthyS locationPath ∧ ¬ intOptTruthy locationId ∧ ¬ opts.dryRun then
      { st with devicesFailed := st.devicesFailed + 1,
                results := st.results ++
                  [deviceLocFailResult row (locationPath.getD "")] }
    else if opts.dryRun then
      { st with devicesCreated := st.devicesCreated + 1,
                results := st.results ++ [deviceDryCreatedResult row] }
    else
      let tinfo : Option TemplateInfo :=
        if jsTruthyS row.device.device_type_id then
          alookup templateMap (row.device.device_type_id.getD "")
        else none
      let payload := mkDevicePayload env.clientId opts.userId opts.companyId
        locationId row.device tinfo
      let st1 := { st with trace := st.trace ++ [ApiCall.createDev payload],
                           devCreateCalls := st.devCreateCalls + 1 }
      match env.createDev st.devCreateCalls with
      | .error msg =>
          { st1 with devicesFailed := st1.devicesFailed + 1,
                     results := st1.results ++ [deviceCreateErrorResult row msg] }
      | .ok (devId, devProps) =>
          if ¬ opts.deviceSettings.isEmpty then
            let merged := opts.deviceSettings.foldl
              (fun ps kv => aupsert ps kv.1 kv.2) devProps
            let st2 := { st1 with
              trace := st1.trace ++ [ApiCall.updateDev devId opts.userId merged],
              devUpdateCalls := st1.devUpdateCalls + 1 }
            match env.updateDev st1.devUpdateCalls with
            | .ok _ =>
                { st2 with devicesCreated := st2.devicesCreated + 1,
                           results := st2.results ++
                             [deviceCreatedResult row devId none] }
            | .error msg =>
                { st2 with devicesCreated := st2.devicesCreated + 1,
                           results := st2.results ++
                             [deviceCreatedResult row devId
                               (some ("Device created but settings failed: " ++ msg))] }
          else
            { st1 with devicesCreated := st1.devicesCreated + 1,
                       results := st1.results ++
                         [deviceCreatedResult row devId none] }

/-- The device loop over all rows. -/
def runDevices (env : Env) (opts : ImportOptions)
    (templateMap : List (String × TemplateInfo)) (st : ImportState)
    (rows : List ParsedRow) : ImportState :=
  rows.foldl (stepDevice env opts templateMap) st

/-- First-occurrence deduplication (`[...new Set(xs)]`). -/
def dedupFirst (l : List String) : List String :=
  l.foldl (fun acc x => if x ∈ acc then acc else acc ++ [x]) []

/-- The deduplicated template ids of the rows (lines 820-824). -/
def templateIdsOf (rows : List ParsedRow) : List String :=
  dedupFirst ((rows.filter (fun r => jsTruthyS r.device.device_type_id)).map
    (fun r => r.device.device_type_id.getD ""))

/-- `fetchTemplates` (lines 476-492): each id fetched once, failures
skipped. -/
def buildTemplateMap (env : Env) (ids : List String) :
    List (String × TemplateInfo) :=
  ids.foldl
    (fun m tid =>
      match env.templates tid with
      | some info => aupsert m tid info
      | none => m)
    []

/-- The hardware ids of the rows (lines 833-835). -/
def hardwareIdsOf (rows : List ParsedRow) : List String :=
  (rows.filter (fun r => jsTruthyS r.device.hardware_id)).map
    (fun r => r.device.hardware_id.getD "")

/-- The initial state of a run. -/
def initState (opts : ImportOptions) : ImportState :=
  { idMap := [], locCreateCalls := 0, devCreateCalls := 0, devUpdateCalls := 0,
    locationsCreated := 0, locationsMatched := 0, locationsFailed := 0,
    devicesCreated := 0, devicesMatched := 0, devicesFailed := 0,
    results := [], trace := [ApiCall.getLocations opts.userId] }

/-- The rows violating the `--device-type-id` consistency check
(`validateDeviceTypeConsistency`, lines 390-409). -/
def deviceTypeMismatches (rows : List ParsedRow) (expected : String) :
    List ParsedRow :=
  rows.filter (fun r =>
    jsTruthyS r.device.device_type_id && r.device.device_type_id.getD "" != expected)

/-- `bulkImport` (lines 685-933).  A `.error` return models the one `throw`
of the function (the device-type consistency check); everything after row
processing starts is accumulated in the state. -/
def bulkImport (rows : List ParsedRow) (opts : ImportOptions) (env : Env) :
    Except String ImportState :=
  let expected := opts.deviceTypeId.getD ""
  if jsTruthyS opts.deviceTypeId ∧ ¬ (deviceTypeMismatches rows expected).isEmpty then
    .error ("Device type ID mismatch. All rows must use device type \"" ++ expected ++ "\":\n"
      ++ String.intercalate "\n" ((deviceTypeMismatches rows expected).map
          (fun r => "  Row " ++ toString r.rowNumber ++ ": found \"" ++
            r.device.device_type_id.getD "" ++ "\"")))
  else
    let st0 := initState opts
    let nodes := sortLocationsByDepth (buildLocationPaths rows opts.prefixLocationName)
    let st1 := runLocations env opts st0 nodes
    let templateIds := templateIdsOf rows
    let templateMap := buildTemplateMap env templateIds
    let st2 := { st1 with trace := st1.trace ++ templateIds.map ApiCall.getTemplate }
    let hardwareIds := hardwareIdsOf rows
    let st3 := { st2 with trace := st2.trace ++
      (if hardwareIds.isEmpty then [] else [ApiCall.getRegistry hardwareIds]) }
    .ok (runDevices env opts templateMap st3 rows)

/-- Number of location-create calls in a trace. -/
def numCreateLoc (tr : List ApiCall) : Nat :=
  tr.countP (fun c => match c with | .createLoc .. => true | _ => false)

/-- Number of device-create calls in a trace. -/
def numCreateDev (tr : List ApiCall) : Nat :=
  tr.countP (fun c => match c with | .createDev .. => true | _ => false)

/-- The (type, action, name) shape of a result, the data compared between
dry and real runs. -/
def resShape (r : ImportResult) : ResultType × ResultAction × String :=
  (r.type, r.action, r.name)

/-- The result-shape list of a whole run. -/
def runShape (x : Except String ImportState) :
    Except String (List (ResultType × ResultAction × String)) :=
  x.map (fun st => st.results.map resShape)

/-- The exit-code policy of the `bulk import` command action
(`commands/bulk.ts`, the check after a completed run): exit 1 when any
location or device failed, otherwise fall through to exit 0. -/
def importExitCode (st : ImportState) : Nat :=
  if st.locationsFailed > 0 || st.devicesFailed > 0 then 1 else 0

/-! ## Derived notions used in statements -/

/-- The result shape a location node produces when no remote call fails
and its parent is resolvable: matched when its full path exists remotely,
created otherwise. -/
def locShapeOf (env : Env) (n : LocationNode) :
    ResultType × ResultAction × String :=
  (.location,
   if (alookup env.existingLocations n.path).isSome then .matched else .created,
   n.name)

/-- The result shape a device row produces when no remote call fails. -/
def devShapeOf (r : ParsedRow) : ResultType × ResultAction × String :=
  (.device, .created, deviceResultName r)

/-- The path accumulated by walking a list of levels starting from a given
accumulator (the common fold of `buildLocationPaths` and
`getDeepestLocationPath`). -/
def joinFrom (pcn : Bool) (cur : String) (ls : List HierarchyLevel) : String :=
  ls.foldl (fun p level => stepPath p (formatLocationName level pcn)) cur

/-- The joined path of all hierarchy levels but the last (the rendered
ancestor part of the deepest path). -/
def ancestorPathOf (r : ParsedRow) (pcn : Bool) : String :=
  r.locationHierarchy.dropLast.foldl
    (fun p level => stepPath p (formatLocationName level pcn)) ""

/-- The rendered name of the deepest hierarchy level. -/
def leafNameOf (r : ParsedRow) (pcn : Bool) : Option String :=
  r.locationHierarchy.getLast?.map (fun level => formatLocationName level pcn)

/-! ## Concrete scenarios used by witnesses and counterexamples -/

/-- A row whose deepest location is `Site RX` and whose device has hardware
id `AA11`. -/
def scenario2Row : ParsedRow :=
  { rowNumber := 2,
    locationHierarchy := [⟨"Site", "RX"⟩],
    device := { hardware_id := some "AA11" } }

/-- Remote state after a prior successful run: the location path exists
with id 7 and the hardware id is present in the registry. -/
def scenario2Env : Env :=
  { clientId := "client",
    existingLocations := [("Site RX", 7)],
    templates := fun _ => none,
    registry := [("AA11", "reg-1")],
    createLoc := fun _ => .error "create failed",
    createDev := fun _ => .ok (42, []),
    updateDev := fun _ => .ok () }

/-- A row yielding the two-node chain `A`, `A/B` (prefixing disabled). -/
def scenario3Row : ParsedRow :=
  { rowNumber := 2, locationHierarchy := [⟨"s", "A"⟩, ⟨"s", "B"⟩] }

/-- Remote state where only the child path `A/B` exists and every location
create is rejected, so the root `A` fails. -/
def scenario3Env : Env :=
  { clientId := "c",
    existingLocations := [("A/B", 5)],
    templates := fun _ => none,
    registry := [],
    createLoc := fun _ => .error "boom",
    createDev := fun _ => .ok (1, []),
    updateDev := fun _ => .ok () }

/-- Options with the raw row values as location names. -/
def scenario3Opts : ImportOptions := { prefixLocationName := false }

/-- An environment whose create calls always succeed with nonzero ids. -/
def scenario1Env : Env :=
  { clientId := "c",
    existingLocations := [("HQ", 3)],
    templates := fun _ => none,
    registry := [],
    createLoc := fun k => .ok (Int.ofNat k + 10),
    createDev := fun k => .ok (Int.ofNat k + 100, []),
    updateDev := fun _ => .ok () }

/-- Two rows sharing a location prefix, each with a device. -/
def scenario1Rows : List ParsedRow :=
  [{ rowNumber := 2,
     locationHierarchy := [⟨"Site", "RX"⟩, ⟨"Building", "7"⟩],
     device := { hardware_id := some "AA11" } },
   { rowNumber := 3,
     locationHierarchy := [⟨"Site", "RX"⟩, ⟨"Building", "8"⟩],
     device := { hardware_id := some "BB22" } }]

/-- Rows with the same rendered leaf but different ancestor sequences whose
joined paths collide (`A/B/C` both ways). -/
def scenario4RowA : ParsedRow :=
  { rowNumber := 2,
    locationHierarchy := [⟨"c", "A"⟩, ⟨"c", "B"⟩, ⟨"c", "C"⟩] }

/-- The colliding partner of `scenario4RowA`: its single ancestor value
contains a slash. -/
def scenario4RowB : ParsedRow :=
  { rowNumber := 3,
    locationHierarchy := [⟨"c", "A/B"⟩, ⟨"c", "C"⟩] }

/-- Rows with the same leaf name under genuinely different ancestors. -/
def scenario4RowC : ParsedRow :=
  { rowNumber := 4,
    locationHierarchy := [⟨"c", "X"⟩, ⟨"c", "C"⟩] }

/-- Partner of `scenario4RowC` with ancestor `A` instead of `X`. -/
def scenario4RowD : ParsedRow :=
  { rowNumber := 5,
    locationHierarchy := [⟨"c", "A"⟩, ⟨"c", "C"⟩] }

/-! # Theorems -/

/-! ## Association-list lemmas -/

theorem alookup_aupsert (m : List (String × α)) (k : String) (v : α) (p : String) :
    alookup (aupsert m k v) p = if k = p then some v else alookup m p := by
  induction m with
  | nil => simp [aupsert, alookup]
  | cons hd tl ih =>
      obtain ⟨k', v'⟩ := hd
      by_cases hk : k' = k
      · subst hk
        by_cases hp : k' = p <;> simp [aupsert, alookup, hp]
      · by_cases hp : k' = p
        · subst hp
          have : ¬ k = k' := fun h => hk h.symm
          simp [aupsert, alookup, hk, this]
        · simp [aupsert, alookup, hk, hp, ih]

theorem intOptTruthy_alookup_aupsert {m : List (String × Int)} {k : String}
    {v : Int} (hv : v ≠ 0) {p : String}
    (h : intOptTruthy (alookup m p) = true) :
    intOptTruthy (alookup (aupsert m k v) p) = true := by
  rw [alookup_aupsert]
  by_cases hk : k = p
  · simp [hk, intOptTruthy, hv]
  · simp [hk, h]

theorem intOptTruthy_alookup_aupsert_ne {m : List (String × Int)} {k : String}
    {v : Int} {p : String} (hk : k ≠ p) :
    intOptTruthy (alookup (aupsert m k v) p) = intOptTruthy (alookup m p) := by
  rw [alookup_aupsert]
  simp [hk]

/-! ## C9: exit code of the bulk import action -/

/-- C9: for every completed import run, the exit code is non-zero exactly
when the summary records at least one location failure or at least one
device failure; when both counts are zero the exit code is zero. -/
theorem claim9_exit_code_iff (rows : List ParsedRow) (opts : ImportOptions)
    (env : Env) (st : ImportState) (_h : bulkImport rows opts env = .ok st) :
    importExitCode st ≠ 0 ↔ (st.locationsFailed > 0 ∨ st.devicesFailed > 0) := by
  unfold importExitCode
  split
  · next hcond =>
      simp only [ne_eq, one_ne_zero, not_false_eq_true, true_iff]
      simpa using hcond
  · next hcond =>
      simp only [ne_eq, not_true_eq_false, false_iff]
      simpa using hcond

/-- Witness for C9 at the empty import. -/
theorem claim9_witness :
    importExitCode (initState ({} : ImportOptions)) ≠ 0 ↔
      ((initState ({} : ImportOptions)).locationsFailed > 0 ∨
       (initState ({} : ImportOptions)).devicesFailed > 0) :=
  claim9_exit_code_iff [] {} scenario1Env (initState {}) (by decide)

/-! ## C7: per-field merge of location defaults and CSV meta -/

/-- C7: the location-create payload is built per field: for each of the six
attributes carried by both `locationDefaults` and the CSV meta the CSV
value wins when present, the default is kept when the meta field is absent,
and an absent meta keeps all defaults (defaults are never discarded
wholesale). -/
theorem claim7_merge_precedence (name : String) (d : LocationDefaults)
    (m : LocationMeta) :
    ((∀ v, m.address = some v → (mergeLocationData name d (some m)).address = some v) ∧
     (m.address = none → (mergeLocationData name d (some m)).address = d.address)) ∧
    ((∀ v, m.city = some v → (mergeLocationData name d (some m)).city = some v) ∧
     (m.city = none → (mergeLocationData name d (some m)).city = d.city)) ∧
    ((∀ v, m.state = some v → (mergeLocationData name d (some m)).state = some v) ∧
     (m.state = none → (mergeLocationData name d (some m)).state = d.state)) ∧
    ((∀ v, m.country = some v → (mergeLocationData name d (some m)).country = some v) ∧
     (m.country = none → (mergeLocationData name d (some m)).country = d.country)) ∧
    ((∀ v, m.zip = some v → (mergeLocationData name d (some m)).zip = some v) ∧
     (m.zip = none → (mergeLocationData name d (some m)).zip = d.zip)) ∧
    ((∀ v, m.industry = some v → (mergeLocationData name d (some m)).industry = some v) ∧
     (m.industry = none → (mergeLocationData name d (some m)).industry = d.industry)) ∧
    mergeLocationData name d none =
      { name := name, address := d.address, city := d.city, state := d.state,
        country := d.country, zip := d.zip, industry := d.industry } := by
  refine ⟨⟨fun v h => ?_, fun h => ?_⟩, ⟨fun v h => ?_, fun h => ?_⟩,
    ⟨fun v h => ?_, fun h => ?_⟩, ⟨fun v h => ?_, fun h => ?_⟩,
    ⟨fun v h => ?_, fun h => ?_⟩, ⟨fun v h => ?_, fun h => ?_⟩, rfl⟩ <;>
  simp [mergeLocationData, mergeField, h]

/-- Witness for C7: a present CSV city overrides the default, an absent CSV
state keeps the default. -/
theorem claim7_witness :
    (mergeLocationData "Floor 1"
        { state := some "Grand Est", city := some "Default City" }
        (some { city := some "Metz" })).city = some "Metz" ∧
    (mergeLocationData "Floor 1"
        { state := some "Grand Est", city := some "Default City" }
        (some { city := some "Metz" })).state = some "Grand Est" :=
  ⟨(claim7_merge_precedence "Floor 1"
      { state := some "Grand Est", city := some "Default City" }
      { city := some "Metz" }).2.1.1 "Metz" rfl,
   (claim7_merge_precedence "Floor 1"
      { state := some "Grand Est", city := some "Default City" }
      { city := some "Metz" }).2.2.1.2 rfl⟩

/-! ## C8: validateMapping characterisation -/

/-- C8: `validateMapping` is a total function returning error strings, and
its error list is non-empty exactly when the hierarchy column list is
empty, or some device field is mapped without `device.hardware_id`, or some
device field is mapped while neither `device.sensor_type` nor
`device.device_type_id` is. -/
theorem claim8_validateMapping_iff (mappings : ColumnMapping)
    (hierarchy : HierarchyMapping) :
    (validateMapping mappings hierarchy).errors ≠ [] ↔
      (hierarchy.columns = [] ∨
       ((mappedFields mappings).any (fun f => f.startsWith "device.") = true ∧
        (mappedFields mappings).contains "device.hardware_id" = false) ∨
       ((mappedFields mappings).any (fun f => f.startsWith "device.") = true ∧
        (mappedFields mappings).contains "device.sensor_type" = false ∧
        (mappedFields mappings).contains "device.device_type_id" = false)) := by
  cases hdev : (mappedFields mappings).any (fun f => f.startsWith "device.") <;>
  cases hhw : (mappedFields mappings).contains "device.hardware_id" <;>
  cases hst : (mappedFields mappings).contains "device.sensor_type" <;>
  cases hdt : (mappedFields mappings).contains "device.device_type_id" <;>
  cases hcols : hierarchy.columns <;>
  simp [validateMapping, hdev, hhw, hst, hdt, hcols]
  all_goals simp at hhw hst hdt
  all_goals tauto

/-! ## C6: delimiter auto-detection -/

theorem detectDelimiter_eq_detect4 (s : String) :
    detectDelimiter s =
      (detect4 (delimCount s ',') (delimCount s ';')
        (delimCount s '\t') (delimCount s '|')).2 := rfl

theorem detect4_spec (n1 n2 n3 n4 : Nat) :
    ((detect4 n1 n2 n3 n4).2 = ',' ∧ n2 ≤ n1 ∧ n3 ≤ n1 ∧ n4 ≤ n1) ∨
    ((detect4 n1 n2 n3 n4).2 = ';' ∧ n1 < n2 ∧ n3 ≤ n2 ∧ n4 ≤ n2) ∨
    ((detect4 n1 n2 n3 n4).2 = '\t' ∧ n1 < n3 ∧ n2 < n3 ∧ n4 ≤ n3) ∨
    ((detect4 n1 n2 n3 n4).2 = '|' ∧ n1 < n4 ∧ n2 < n4 ∧ n3 < n4) := by
  have ha1 : (if n1 > 0 then (n1, ',') else ((0 : Nat), ',')) = (n1, ',') := by
    split_ifs with h
    · rfl
    · simp [Nat.eq_zero_of_not_pos h]
  unfold detect4
  rw [ha1]
  dsimp only
  split_ifs <;> simp_all <;> omega

/-- C6 (counterexample to the claim as stated): in `"a;b;c|d|e"` the
semicolon and pipe counts tie for the highest, no candidate has a strictly
highest count, yet detection returns the semicolon instead of the claimed
comma default. -/
theorem claim6_counterexample :
    delimCount "a;b;c|d|e" ';' = 2 ∧
    delimCount "a;b;c|d|e" '|' = 2 ∧
    delimCount "a;b;c|d|e" ',' = 0 ∧
    delimCount "a;b;c|d|e" '\t' = 0 ∧
    detectDelimiter "a;b;c|d|e" = ';' ∧
    detectDelimiter "a;b;c|d|e" ≠ ',' := by decide

/-- C6 (amended): detection returns the earliest candidate in the order
comma, semicolon, tab, pipe among those with the maximal occurrence count;
in particular it returns comma when no candidate occurs at all.  (Ties are
broken by candidate order, not always in favour of comma.) -/
theorem claim6_amended_earliest_max (s : String) :
    detectDelimiter s ∈ csvDelimiters ∧
    (∀ c ∈ csvDelimiters, delimCount s c ≤ delimCount s (detectDelimiter s)) ∧
    (∀ c ∈ csvDelimiters, delimCount s c = delimCount s (detectDelimiter s) →
      csvDelimiters.indexOf (detectDelimiter s) ≤ csvDelimiters.indexOf c) ∧
    ((∀ c ∈ csvDelimiters, delimCount s c = 0) → detectDelimiter s = ',') := by
  have hspec := detect4_spec (delimCount s ',') (delimCount s ';')
    (delimCount s '\t') (delimCount s '|')
  rw [← detectDelimiter_eq_detect4 s] at hspec
  rcases hspec with ⟨hd, ha, hb, hc⟩ | ⟨hd, ha, hb, hc⟩ | ⟨hd, ha, hb, hc⟩ | ⟨hd, ha, hb, hc⟩ <;>
    rw [hd] <;>
    refine ⟨by decide, ?_, ?_, ?_⟩ <;>
    first
    | (intro c hcm
       unfold csvDelimiters at hcm
       fin_cases hcm <;> omega)
    | (intro c hcm heq
       unfold csvDelimiters at hcm
       fin_cases hcm <;> first | decide | omega)
    | (intro hz
       first
       | rfl
       | (exfalso
          have e1 := hz ',' (by decide)
          have e2 := hz ';' (by decide)
          have e3 := hz '\t' (by decide)
          have e4 := hz '|' (by decide)
          omega))

/-- Witness for C6 at a header whose maximal candidate is the pipe. -/
theorem claim6_witness :
    delimCount "x|y|z;w" ';' ≤ delimCount "x|y|z;w" (detectDelimiter "x|y|z;w") :=
  (claim6_amended_earliest_max "x|y|z;w").2.1 ';' (by decide)

/-! ## C5: hierarchy truncation at the first blank level -/

theorem applyTarget_locationHierarchy (p : ParsedRow) (t v : String) :
    (applyTarget p t v).locationHierarchy = p.locationHierarchy := by
  unfold applyTarget
  split_ifs <;> rfl

theorem foldTargets_locationHierarchy (v : String) :
    ∀ (ts : List String) (p : ParsedRow),
      (ts.foldl (fun p t => applyTarget p t v) p).locationHierarchy =
        p.locationHierarchy := by
  intro ts
  induction ts with
  | nil => intro p; rfl
  | cons t ts ih =>
      intro p
      simp only [List.foldl_cons]
      rw [ih, applyTarget_locationHierarchy]

theorem applyColumn_locationHierarchy (p : ParsedRow) (row : CsvRow)
    (col : String) (targets : List String) :
    (applyColumn p row col targets).locationHierarchy = p.locationHierarchy := by
  unfold applyColumn
  cases alookup row col with
  | none => rfl
  | some raw =>
      dsimp only
      split
      · rfl
      · exact foldTargets_locationHierarchy _ targets p

theorem mappingsFold_locationHierarchy (row : CsvRow) :
    ∀ (ms : ColumnMapping) (p0 : ParsedRow),
      (ms.foldl
        (fun p kv =>
          match kv.2 with
          | .skip => p
          | .single t =>
              if t = "" || t = "location.hierarchy" then p
              else applyColumn p row kv.1 [t]
          | .multi ts => applyColumn p row kv.1 ts)
        p0).locationHierarchy = p0.locationHierarchy := by
  intro ms
  induction ms with
  | nil => intro p0; rfl
  | cons kv ms ih =>
      intro p0
      simp only [List.foldl_cons]
      rw [ih]
      obtain ⟨col, tgt⟩ := kv
      cases tgt with
      | skip => rfl
      | single t =>
          dsimp only
          split
          · rfl
          · exact applyColumn_locationHierarchy p0 row col [t]
      | multi ts => exact applyColumn_locationHierarchy p0 row col ts

theorem transformRow_locationHierarchy (mappings : ColumnMapping)
    (hcols : List String) (idx : Nat) (row : CsvRow) :
    (transformRow mappings hcols idx row).locationHierarchy =
      buildHierarchy row hcols := by
  unfold transformRow
  exact mappingsFold_locationHierarchy row mappings _

theorem buildHierarchy_length_of_first_blank :
    ∀ (cols : List String) (row : CsvRow) (j : Nat) (cj : String),
      cols.get? j = some cj → blankAt row cj = true →
      (∀ i ci, i < j → cols.get? i = some ci → blankAt row ci = false) →
      (buildHierarchy row cols).length = j := by
  intro cols
  induction cols with
  | nil => intro row j cj hj; simp at hj
  | cons c rest ih =>
      intro row j cj hj hblank hprev
      cases j with
      | zero =>
          have hcj : cj = c := by
            simp only [List.get?_cons_zero, Option.some.injEq] at hj
            exact hj.symm
          subst hcj
          unfold buildHierarchy
          cases halk : alookup row cj with
          | none => simp [halk]
          | some raw =>
              simp only [blankAt, halk, decide_eq_true_eq] at hblank
              simp [halk, hblank]
      | succ jp =>
          have hc0 : blankAt row c = false := hprev 0 c (Nat.succ_pos jp) rfl
          unfold buildHierarchy
          cases halk : alookup row c with
          | none => simp [blankAt, halk] at hc0
          | some raw =>
              simp only [blankAt, halk, decide_eq_false_iff_not] at hc0
              simp only [halk, if_neg hc0, List.length_cons]
              rw [ih row jp cj hj hblank]
              intro i ci hi hg
              exact hprev (i + 1) ci (Nat.succ_lt_succ hi) hg

theorem transformRowsAux_get? (mappings : ColumnMapping) (hcols : List String) :
    ∀ (rs : List CsvRow) (n i : Nat),
      (transformRowsAux mappings hcols n rs).get? i =
        (rs.get? i).map (transformRow mappings hcols (n + i)) := by
  intro rs
  induction rs with
  | nil => intro n i; simp [transformRowsAux]
  | cons r rs ih =>
      intro n i
      cases i with
      | zero => simp [transformRowsAux]
      | succ i' =>
          simp only [transformRowsAux, List.get?_cons_succ, ih (n + 1) i']
          have : n + 1 + i' = n + (i' + 1) := by omega
          rw [this]

/-- C5 (counterexample to the claim as stated): with hierarchy columns
`A, B` and both values blank, level 2 is blank but the resulting hierarchy
has 0 entries, not 2-1. -/
theorem claim5_counterexample :
    blankAt [("A", ""), ("B", "")] "B" = true ∧
    (transformRows [[("A", ""), ("B", "")]] [] ⟨["A", "B"]⟩).get? 0 =
      some (transformRow [] ["A", "B"] 0 [("A", ""), ("B", "")]) ∧
    (transformRow [] ["A", "B"] 0 [("A", ""), ("B", "")]).locationHierarchy.length
      ≠ 2 - 1 := by decide

/-- C5 (amended): if level k (1-indexed) is the FIRST blank hierarchy level
of a row — its trimmed value is blank and every shallower level is
non-blank — then the transformed row has exactly k-1 hierarchy entries,
regardless of the values at deeper levels. -/
theorem claim5_amended_first_blank (mappings : ColumnMapping)
    (hierarchy : HierarchyMapping) (rows : List CsvRow) (i : Nat)
    (row : CsvRow) (pr : ParsedRow) (k : Nat) (ck : String)
    (hrow : rows.get? i = some row)
    (hpr : (transformRows rows mappings hierarchy).get? i = some pr)
    (hk : hierarchy.columns.get? (k - 1) = some ck)
    (hblank : blankAt row ck = true)
    (hprev : ∀ j cj, j < k - 1 → hierarchy.columns.get? j = some cj →
      blankAt row cj = false) :
    pr.locationHierarchy.length = k - 1 := by
  unfold transformRows at hpr
  rw [transformRowsAux_get? mappings hierarchy.columns rows 0 i, hrow] at hpr
  simp only [Option.map_some', Option.some.injEq] at hpr
  subst hpr
  rw [transformRow_locationHierarchy]
  exact buildHierarchy_length_of_first_blank hierarchy.columns row (k - 1) ck
    hk hblank hprev

/-- Witness for C5: level 2 of `A, B, C` is the first blank level, so the
hierarchy has exactly one entry. -/
theorem claim5_witness :
    (transformRow [] ["A", "B", "C"] 0 [("A", "x"), ("B", " "), ("C", "y")]).locationHierarchy.length
      = 2 - 1 :=
  claim5_amended_first_blank [] ⟨["A", "B", "C"]⟩
    [[("A", "x"), ("B", " "), ("C", "y")]] 0
    [("A", "x"), ("B", " "), ("C", "y")]
    (transformRow [] ["A", "B", "C"] 0 [("A", "x"), ("B", " "), ("C", "y")])
    2 "B" rfl rfl rfl (by decide)
    (by
      intro j cj hj hg
      interval_cases j
      simp only [List.get?_cons_zero, Option.some.injEq] at hg
      subst hg
      decide)

/-! ## C4: path-based node identity -/

theorem pathMem_iff (ns : List LocationNode) (p : String) :
    pathMem ns p = true ↔ ∃ n, n ∈ ns ∧ n.path = p := by
  simp [pathMem, List.any_eq_true]

theorem joinFrom_cons (pcn : Bool) (cur : String) (l : HierarchyLevel)
    (rest : List HierarchyLevel) :
    joinFrom pcn cur (l :: rest) =
      joinFrom pcn (stepPath cur (formatLocationName l pcn)) rest := rfl

theorem addLevels_mono (pcn : Bool) (meta : LocationMeta) :
    ∀ (ls : List HierarchyLevel) (cur : String) (ns : List LocationNode)
      (n : LocationNode), n ∈ ns → n ∈ addLevels pcn meta cur ns ls := by
  intro ls
  induction ls with
  | nil => intro cur ns n hn; exact hn
  | cons l rest ih =>
      intro cur ns n hn
      unfold addLevels
      dsimp only
      split
      · exact ih _ _ n hn
      · exact ih _ _ n (List.mem_append_left _ hn)

theorem addLevels_deepest_mem (pcn : Bool) (meta : LocationMeta) :
    ∀ (ls : List HierarchyLevel) (cur : String) (ns : List LocationNode),
      ls ≠ [] →
      ∃ n, n ∈ addLevels pcn meta cur ns ls ∧ n.path = joinFrom pcn cur ls := by
  intro ls
  induction ls with
  | nil => intro cur ns h; exact absurd rfl h
  | cons l rest ih =>
      intro cur ns _
      by_cases hr : rest = []
      · subst hr
        rw [joinFrom_cons]
        unfold addLevels
        dsimp only
        split
        · next hm =>
            obtain ⟨n, hn, hp⟩ := (pathMem_iff ns _).mp hm
            exact ⟨n, hn, hp⟩
        · refine ⟨_, List.mem_append_right _ (List.mem_singleton_self _), rfl⟩
      · rw [joinFrom_cons]
        unfold addLevels
        dsimp only
        split
        · exact ih _ ns hr
        · exact ih _ _ hr

theorem addLevels_paths_nodup (pcn : Bool) (meta : LocationMeta) :
    ∀ (ls : List HierarchyLevel) (cur : String) (ns : List LocationNode),
      (ns.map (fun n => n.path)).Nodup →
      ((addLevels pcn meta cur ns ls).map (fun n => n.path)).Nodup := by
  intro ls
  induction ls with
  | nil => intro cur ns h; exact h
  | cons l rest ih =>
      intro cur ns h
      unfold addLevels
      dsimp only
      split
      · exact ih _ _ h
      · next hm =>
          refine ih _ _ ?_
          rw [List.map_append]
          rw [List.nodup_append]
          refine ⟨h, List.nodup_singleton _, ?_⟩
          intro a ha hb
          simp only [List.map_cons, List.map_nil, List.mem_singleton] at hb
          subst hb
          simp only [List.mem_map] at ha
          obtain ⟨n, hn, hp⟩ := ha
          exact hm ((pathMem_iff ns _).mpr ⟨n, hn, hp⟩)

theorem buildLocationPaths_mono (pcn : Bool) :
    ∀ (rows : List ParsedRow) (ns : List LocationNode) (n : LocationNode),
      n ∈ ns →
      n ∈ rows.foldl
        (fun ns row =>
          if row.locationHierarchy.isEmpty then ns
          else addLevels pcn row.locationMeta "" ns row.locationHierarchy) ns := by
  intro rows
  induction rows with
  | nil => intro ns n hn; exact hn
  | cons r rows ih =>
      intro ns n hn
      simp only [List.foldl_cons]
      apply ih
      split
      · exact hn
      · exact addLevels_mono pcn r.locationMeta _ _ ns n hn

theorem buildFold_deepest_mem (pcn : Bool) :
    ∀ (rows : List ParsedRow) (ns : List LocationNode) (r : ParsedRow),
      r ∈ rows → r.locationHierarchy ≠ [] →
      ∃ n, n ∈ rows.foldl
          (fun ns row =>
            if row.locationHierarchy.isEmpty then ns
            else addLevels pcn row.locationMeta "" ns row.locationHierarchy) ns ∧
        n.path = joinFrom pcn "" r.locationHierarchy := by
  intro rows
  induction rows with
  | nil => intro ns r hr; cases hr
  | cons r0 rows ih =>
      intro ns r hr hne
      rcases List.mem_cons.mp hr with rfl | hmem
      · simp only [List.foldl_cons]
        rw [if_neg (by simpa [List.isEmpty_iff] using hne)]
        obtain ⟨n, hn, hp⟩ :=
          addLevels_deepest_mem pcn r.locationMeta r.locationHierarchy "" ns hne
        exact ⟨n, buildLocationPaths_mono pcn rows _ n hn, hp⟩
      · simp only [List.foldl_cons]
        exact ih _ r hmem hne

theorem buildLocationPaths_deepest_mem (pcn : Bool) (rows : List ParsedRow)
    (r : ParsedRow) (hr : r ∈ rows) (hne : r.locationHierarchy ≠ []) :
    ∃ n, n ∈ buildLocationPaths rows pcn ∧
      n.path = joinFrom pcn "" r.locationHierarchy :=
  buildFold_deepest_mem pcn rows [] r hr hne

theorem buildLocationPaths_paths_nodup (pcn : Bool) (rows : List ParsedRow) :
    ((buildLocationPaths rows pcn).map (fun n => n.path)).Nodup := by
  unfold buildLocationPaths
  have h : ∀ (rs : List ParsedRow) (ns : List LocationNode),
      (ns.map (fun n => n.path)).Nodup →
      ((rs.foldl
        (fun ns row =>
          if row.locationHierarchy.isEmpty then ns
          else addLevels pcn row.locationMeta "" ns row.locationHierarchy)
        ns).map (fun n => n.path)).Nodup := by
    intro rs
    induction rs with
    | nil => intro ns hn; exact hn
    | cons r rs ih =>
        intro ns hn
        simp only [List.foldl_cons]
        apply ih
        split
        · exact hn
        · exact addLevels_paths_nodup pcn r.locationMeta _ _ ns hn
  exact h rows [] (by simp)

theorem stepPath_ne {a1 a2 : String} (l : String) (h : a1 ≠ a2) :
    stepPath a1 l ≠ stepPath a2 l := by
  unfold stepPath
  split_ifs with h1 h2 h2
  · exact absurd (h1.trans h2.symm) h
  · intro he
    have hd := congrArg String.data he
    rw [String.data_append, String.data_append] at hd
    have hlen := congrArg List.length hd
    simp only [List.length_append, String.data, List.length_cons,
      List.length_nil] at hlen
    omega
  · intro he
    have hd := congrArg String.data he
    rw [String.data_append, String.data_append] at hd
    have hlen := congrArg List.length hd
    simp only [List.length_append, String.data, List.length_cons,
      List.length_nil] at hlen
    omega
  · intro he
    have hd := congrArg String.data he
    rw [String.data_append, String.data_append, String.data_append,
      String.data_append] at hd
    have hd2 := List.append_cancel_right hd
    have hd3 := List.append_cancel_right hd2
    exact h (String.ext hd3)

theorem getDeepest_eq_joinFrom (pcn : Bool) (r : ParsedRow)
    (h : r.locationHierarchy ≠ []) :
    getDeepestLocationPath r pcn = some (joinFrom pcn "" r.locationHierarchy) := by
  unfold getDeepestLocationPath joinFrom
  rw [if_neg (by simpa [List.isEmpty_iff] using h)]

theorem joinFrom_decomp (pcn : Bool) (r : ParsedRow)
    (h : r.locationHierarchy ≠ []) :
    joinFrom pcn "" r.locationHierarchy =
      stepPath (ancestorPathOf r pcn)
        (formatLocationName (r.locationHierarchy.getLast h) pcn) := by
  conv_lhs => rw [← List.dropLast_append_getLast h]
  unfold joinFrom ancestorPathOf
  rw [List.foldl_append]
  rfl

theorem leafNameOf_eq (pcn : Bool) (r : ParsedRow)
    (h : r.locationHierarchy ≠ []) :
    leafNameOf r pcn =
      some (formatLocationName (r.locationHierarchy.getLast h) pcn) := by
  unfold leafNameOf
  rw [List.getLast?_eq_getLast _ h]
  rfl

/-- C4 (counterexample to the claim as stated): two rows whose deepest
levels render to the same leaf name `C` and whose ancestor sequences differ
(`A, B` versus the single slash-containing value `A/B`) still collapse to
one `LocationNode`, because the joined path strings collide. -/
theorem claim4_counterexample :
    leafNameOf scenario4RowA false = leafNameOf scenario4RowB false ∧
    scenario4RowA.locationHierarchy.dropLast ≠ scenario4RowB.locationHierarchy.dropLast ∧
    getDeepestLocationPath scenario4RowA false = getDeepestLocationPath scenario4RowB false ∧
    (buildLocationPaths [scenario4RowA, scenario4RowB] false).map (fun n => n.path) =
      ["A", "A/B", "A/B/C"] := by decide

/-- C4 (amended): location-node identity is exact string equality of the
full joined path.  Rows with identical hierarchy sequences get the same
deepest path (and the path map has no duplicate paths, so they share one
node); rows with the same rendered leaf name whose JOINED ancestor paths
differ as strings get distinct deepest paths, and both paths are present in
the map.  (The original claim, keyed on ancestor sequences rather than
joined ancestor strings, fails when a rendered name contains a slash.) -/
theorem claim4_amended_path_identity (rows : List ParsedRow) (pcn : Bool) :
    (∀ r1 r2, r1 ∈ rows → r2 ∈ rows →
        r1.locationHierarchy = r2.locationHierarchy →
        getDeepestLocationPath r1 pcn = getDeepestLocationPath r2 pcn) ∧
    ((buildLocationPaths rows pcn).map (fun n => n.path)).Nodup ∧
    (∀ r1 r2, r1 ∈ rows → r2 ∈ rows →
        ∀ (_h1 : r1.locationHierarchy ≠ []) (_h2 : r2.locationHierarchy ≠ []),
        leafNameOf r1 pcn = leafNameOf r2 pcn →
        ancestorPathOf r1 pcn ≠ ancestorPathOf r2 pcn →
        getDeepestLocationPath r1 pcn ≠ getDeepestLocationPath r2 pcn ∧
        (∃ n1, n1 ∈ buildLocationPaths rows pcn ∧
          some n1.path = getDeepestLocationPath r1 pcn) ∧
        (∃ n2, n2 ∈ buildLocationPaths rows pcn ∧
          some n2.path = getDeepestLocationPath r2 pcn)) := by
  refine ⟨?_, buildLocationPaths_paths_nodup pcn rows, ?_⟩
  · intro r1 r2 _ _ heq
    unfold getDeepestLocationPath
    rw [heq]
  · intro r1 r2 hm1 hm2 h1 h2 hleaf hanc
    have hf : formatLocationName (r1.locationHierarchy.getLast h1) pcn =
        formatLocationName (r2.locationHierarchy.getLast h2) pcn := by
      have e1 := leafNameOf_eq pcn r1 h1
      have e2 := leafNameOf_eq pcn r2 h2
      rw [e1, e2] at hleaf
      exact Option.some_injective _ hleaf
    refine ⟨?_, ?_, ?_⟩
    · rw [getDeepest_eq_joinFrom pcn r1 h1, getDeepest_eq_joinFrom pcn r2 h2]
      intro he
      have hjoin := Option.some_injective _ he
      rw [joinFrom_decomp pcn r1 h1, joinFrom_decomp pcn r2 h2, hf] at hjoin
      exact stepPath_ne _ hanc hjoin
    · obtain ⟨n, hn, hp⟩ := buildLocationPaths_deepest_mem pcn rows r1 hm1 h1
      exact ⟨n, hn, by rw [getDeepest_eq_joinFrom pcn r1 h1, hp]⟩
    · obtain ⟨n, hn, hp⟩ := buildLocationPaths_deepest_mem pcn rows r2 hm2 h2
      exact ⟨n, hn, by rw [getDeepest_eq_joinFrom pcn r2 h2, hp]⟩

/-- Witness for C4: same leaf `C` under genuinely different joined
ancestors `A` and `X` gives distinct deepest paths. -/
theorem claim4_witness :
    getDeepestLocationPath scenario4RowC false ≠
      getDeepestLocationPath scenario4RowD false :=
  ((claim4_amended_path_identity [scenario4RowC, scenario4RowD] false).2.2
    scenario4RowC scenario4RowD
    (by decide) (by decide) (by decide) (by decide) (by decide) (by decide)).1

/-! ## C10 and C2: the registry lookup result is discarded -/

theorem stepLocation_summary_inv (env : Env) (opts : ImportOptions)
    (st : ImportState) (n : LocationNode) :
    (stepLocation env opts st n).devicesMatched = st.devicesMatched ∧
    ∃ r, (stepLocation env opts st n).results = st.results ++ [r] ∧
      r.type = .location := by
  unfold stepLocation
  split
  · exact ⟨rfl, _, rfl, rfl⟩
  · split
    · exact ⟨rfl, _, rfl, rfl⟩
    · split_ifs
      · exact ⟨rfl, _, rfl, rfl⟩
      · dsimp only
        split
        · exact ⟨rfl, _, rfl, rfl⟩
        · exact ⟨rfl, _, rfl, rfl⟩

theorem stepDevice_summary_inv (env : Env) (opts : ImportOptions)
    (templateMap : List (String × TemplateInfo)) (st : ImportState)
    (row : ParsedRow) :
    (stepDevice env opts templateMap st row).devicesMatched = st.devicesMatched ∧
    ((stepDevice env opts templateMap st row).results = st.results ∨
     ∃ r, (stepDevice env opts templateMap st row).results = st.results ++ [r] ∧
       r.type = .device ∧ (r.action = .created ∨ r.action = .failed)) := by
  unfold stepDevice
  dsimp only
  repeat' split
  all_goals
    first
      | exact ⟨rfl, Or.inl rfl⟩
      | exact ⟨rfl, Or.inr ⟨_, rfl, rfl, Or.inl rfl⟩⟩
      | exact ⟨rfl, Or.inr ⟨_, rfl, rfl, Or.inr rfl⟩⟩

/-- The device-result invariant carried through both loops. -/
def noDeviceMatch (st : ImportState) : Prop :=
  st.devicesMatched = 0 ∧
  ∀ r ∈ st.results, r.type = .device →
    r.action ≠ .matched ∧ r.action ≠ .updated

theorem runLocations_noDeviceMatch (env : Env) (opts : ImportOptions) :
    ∀ (nodes : List LocationNode) (st : ImportState),
      noDeviceMatch st → noDeviceMatch (runLocations env opts st nodes) := by
  intro nodes
  induction nodes with
  | nil => intro st h; exact h
  | cons n nodes ih =>
      intro st h
      have hrun : runLocations env opts st (n :: nodes) =
          runLocations env opts (stepLocation env opts st n) nodes := rfl
      rw [hrun]
      apply ih
      obtain ⟨hdm, r, hres, htype⟩ := stepLocation_summary_inv env opts st n
      refine ⟨hdm.trans h.1, ?_⟩
      intro r' hr' hty
      rw [hres] at hr'
      rcases List.mem_append.mp hr' with hin | hin
      · exact h.2 r' hin hty
      · rw [List.mem_singleton.mp hin] at hty
        rw [List.mem_singleton.mp hin]
        rw [htype] at hty
        cases hty

theorem runDevices_noDeviceMatch (env : Env) (opts : ImportOptions)
    (templateMap : List (String × TemplateInfo)) :
    ∀ (rows : List ParsedRow) (st : ImportState),
      noDeviceMatch st →
      noDeviceMatch (runDevices env opts templateMap st rows) := by
  intro rows
  induction rows with
  | nil => intro st h; exact h
  | cons row rows ih =>
      intro st h
      have hrun : runDevices env opts templateMap st (row :: rows) =
          runDevices env opts templateMap
            (stepDevice env opts templateMap st row) rows := rfl
      rw [hrun]
      apply ih
      obtain ⟨hdm, hres⟩ := stepDevice_summary_inv env opts templateMap st row
      refine ⟨hdm.trans h.1, ?_⟩
      rcases hres with heq | ⟨r, heq, _, hact⟩
      · rw [heq]; exact h.2
      · intro r' hr' hty
        rw [heq] at hr'
        rcases List.mem_append.mp hr' with hin | hin
        · exact h.2 r' hin hty
        · rw [List.mem_singleton.mp hin]
          rcases hact with ha | ha <;> rw [ha] <;> exact ⟨by simp, by simp⟩

/-- C10: the returned summary never records a matched or updated device —
`devicesMatched` is always 0 and no device result carries those actions —
and the registry contents are irrelevant to the whole run: the
hardware-registry lookup result is discarded. -/
theorem claim10_registry_discarded (rows : List ParsedRow)
    (opts : ImportOptions) (env : Env) (reg : List (String × String))
    (st : ImportState) (h : bulkImport rows opts env = .ok st) :
    st.devicesMatched = 0 ∧
    (∀ r ∈ st.results, r.type = .device →
      r.action ≠ .matched ∧ r.action ≠ .updated) ∧
    bulkImport rows opts { env with registry := reg } =
      bulkImport rows opts env := by
  have hmain : noDeviceMatch st := by
    unfold bulkImport at h
    dsimp only at h
    split at h
    · cases h
    · have hst := Except.ok.inj h
      subst hst
      apply runDevices_noDeviceMatch
      have h1 : noDeviceMatch (runLocations env opts (initState opts)
          (sortLocationsByDepth (buildLocationPaths rows opts.prefixLocationName))) := by
        apply runLocations_noDeviceMatch
        exact ⟨rfl, by intro r hr; cases hr⟩
      exact ⟨h1.1, h1.2⟩
  exact ⟨hmain.1, hmain.2, rfl⟩

/-- Witness for C10 at the re-import scenario. -/
theorem claim10_witness :
    ((bulkImport [scenario2Row] {} scenario2Env).toOption.getD
        (initState {})).devicesMatched = 0 ∧
    bulkImport [scenario2Row] {} { scenario2Env with registry := [("X", "Y")] } =
      bulkImport [scenario2Row] {} scenario2Env :=
  ⟨(claim10_registry_discarded [scenario2Row] {} scenario2Env [("X", "Y")]
      ((bulkImport [scenario2Row] {} scenario2Env).toOption.getD (initState {}))
      (by decide)).1,
   (claim10_registry_discarded [scenario2Row] {} scenario2Env [("X", "Y")]
      ((bulkImport [scenario2Row] {} scenario2Env).toOption.getD (initState {}))
      (by decide)).2.2⟩

/-- C2 (code bug): re-importing a row whose location already exists and
whose hardware id is present in the remote registry resolves1 the location
as matched, but the device is NOT skipped: a device create call is still
issued (the registry lookup result is discarded), contradicting the
documented hardware-id existence check. -/
theorem claim2_registry_ignored_run :
    alookup scenario2Env.registry "AA11" = some "reg-1" ∧
    runShape (bulkImport [scenario2Row] {} scenario2Env) =
      .ok [(ResultType.location, ResultAction.matched, "Site RX"),
           (ResultType.device, ResultAction.created, "AA11")] ∧
    (bulkImport [scenario2Row] {} scenario2Env).map
      (fun st => numCreateDev st.trace) = .ok 1 ∧
    (bulkImport [scenario2Row] {} scenario2Env).map
      (fun st => st.devicesMatched) = .ok 0 := by decide

/-! ## Branch equations of the location step -/

theorem stepLocation_matched (env : Env) (opts : ImportOptions)
    (st : ImportState) (node : LocationNode) (exId : Int)
    (h : alookup env.existingLocations node.path = some exId) :
    stepLocation env opts st node =
      { st with idMap := aupsert st.idMap node.path exId,
                locationsMatched := st.locationsMatched + 1,
                results := st.results ++ [matchedResult node exId] } := by
  unfold stepLocation
  rw [h]

theorem stepLocation_parent_fail (env : Env) (opts : ImportOptions)
    (st : ImportState) (node : LocationNode)
    (h1 : alookup env.existingLocations node.path = none)
    (h2 : parentLookup st node = none) :
    stepLocation env opts st node =
      { st with locationsFailed := st.locationsFailed + 1,
                results := st.results ++ [failedParentResult node] } := by
  unfold stepLocation
  rw [h1, h2]

theorem stepLocation_dry (env : Env) (opts : ImportOptions)
    (st : ImportState) (node : LocationNode) (pid : Option Int)
    (h1 : alookup env.existingLocations node.path = none)
    (h2 : parentLookup st node = some pid)
    (hd : opts.dryRun = true) :
    stepLocation env opts st node =
      { st with locationsCreated := st.locationsCreated + 1,
                results := st.results ++ [dryCreatedResult node],
                idMap := aupsert st.idMap node.path (-1) } := by
  unfold stepLocation
  rw [h1, h2]
  dsimp only
  rw [if_pos hd]

theorem stepLocation_real_ok (env : Env) (opts : ImportOptions)
    (st : ImportState) (node : LocationNode) (pid : Option Int) (v : Int)
    (h1 : alookup env.existingLocations node.path = none)
    (h2 : parentLookup st node = some pid)
    (hd : opts.dryRun = false)
    (hc : env.createLoc st.locCreateCalls = .ok v) :
    stepLocation env opts st node =
      { st with
        trace := st.trace ++
          [ApiCall.createLoc (mergeLocationData node.name opts.locationDefaults node.meta)
            pid opts.userId opts.companyId],
        locCreateCalls := st.locCreateCalls + 1,
        idMap := aupsert st.idMap node.path v,
        locationsCreated := st.locationsCreated + 1,
        results := st.results ++ [createdResult node v] } := by
  unfold stepLocation
  rw [h1, h2]
  dsimp only
  rw [if_neg (by simp [hd]), hc]

theorem stepLocation_real_err (env : Env) (opts : ImportOptions)
    (st : ImportState) (node : LocationNode) (pid : Option Int) (msg : String)
    (h1 : alookup env.existingLocations node.path = none)
    (h2 : parentLookup st node = some pid)
    (hd : opts.dryRun = false)
    (hc : env.createLoc st.locCreateCalls = .error msg) :
    stepLocation env opts st node =
      { st with
        trace := st.trace ++
          [ApiCall.createLoc (mergeLocationData node.name opts.locationDefaults node.meta)
            pid opts.userId opts.companyId],
        locCreateCalls := st.locCreateCalls + 1,
        locationsFailed := st.locationsFailed + 1,
        results := st.results ++ [createErrorResult node msg] } := by
  unfold stepLocation
  rw [h1, h2]
  dsimp only
  rw [if_neg (by simp [hd]), hc]

theorem parentLookup_none_of_falsy (st : ImportState) (node : LocationNode)
    (pp : String) (hpp : node.parentPath = some pp)
    (h : intOptTruthy (alookup st.idMap pp) = false) :
    parentLookup st node = none := by
  unfold parentLookup
  rw [hpp]
  dsimp only
  cases halk : alookup st.idMap pp with
  | none => rfl
  | some v =>
      rw [halk] at h
      simp only [intOptTruthy, bne_eq_false_iff_eq] at h
      simp [h]

theorem stepLocation_idMap_cases (env : Env) (opts : ImportOptions)
    (st : ImportState) (n : LocationNode) :
    (stepLocation env opts st n).idMap = st.idMap ∨
    ∃ v, (stepLocation env opts st n).idMap = aupsert st.idMap n.path v := by
  unfold stepLocation
  dsimp only
  repeat' split
  all_goals first | exact Or.inl rfl | exact Or.inr ⟨_, rfl⟩

theorem numCreateLoc_append (tr1 tr2 : List ApiCall) :
    numCreateLoc (tr1 ++ tr2) = numCreateLoc tr1 + numCreateLoc tr2 :=
  List.countP_append _ _ _

theorem numCreateLoc_createLoc_one (d : LocationCreateData) (p : Option Int)
    (u : Option String) (c : Option Nat) :
    numCreateLoc [ApiCall.createLoc d p u c] = 1 := rfl

theorem stepLocation_numCreateLoc_le (env : Env) (opts : ImportOptions)
    (st : ImportState) (n : LocationNode) :
    numCreateLoc (stepLocation env opts st n).trace ≤ numCreateLoc st.trace + 1 := by
  unfold stepLocation
  dsimp only
  repeat' split
  all_goals try simp only [numCreateLoc_append, numCreateLoc_createLoc_one]
  all_goals omega

/-! ## C3: parent-not-found failure and its propagation -/

/-- C3 (counterexample to the claim as stated): the remote holds only the
child path `A/B`; the root `A` fails (its create is rejected), so when
`A/B` is processed its parentPath `A` is absent from the path-to-id map —
yet `A/B` is recorded as `matched` (it exists remotely), not `failed`. -/
theorem claim3_counterexample :
    intOptTruthy (alookup (runLocations scenario3Env scenario3Opts
      (initState scenario3Opts)
      ((sortLocationsByDepth (buildLocationPaths [scenario3Row] false)).take 1)).idMap
      "A") = false ∧
    ((sortLocationsByDepth (buildLocationPaths [scenario3Row] false)).map
      (fun n => n.parentPath)).get? 1 = some (some "A") ∧
    ((runLocations scenario3Env scenario3Opts (initState scenario3Opts)
      (sortLocationsByDepth (buildLocationPaths [scenario3Row] false))).results.map
      (fun r => r.action)).get? 1 = some ResultAction.matched ∧
    some ResultAction.matched ≠ some ResultAction.failed := by decide

/-- C3 (amended): (1) a node NOT present in the remote location map whose
parentPath is absent (or falsy) in the path-to-id map at the moment it is
processed is recorded as a single `failed` result with a parent-not-found
error, with no create call and no id-map change; (2) for any set `D` of
paths, none truthy in the id map, such that every listed node with a path
in `D` is absent from the remote map and has its parentPath in `D` (a
failed node's descendants, provided no intermediate path is matched
remotely), every such node is recorded as `failed` for the same reason,
`D` stays un-resolvable, and the dead nodes issue no create calls. -/
theorem claim3_amended_parent_failure (env : Env) (opts : ImportOptions)
    (D : List String) :
    (∀ (st : ImportState) (n : LocationNode) (pp : String),
        alookup env.existingLocations n.path = none →
        n.parentPath = some pp →
        intOptTruthy (alookup st.idMap pp) = false →
        stepLocation env opts st n =
          { st with locationsFailed := st.locationsFailed + 1,
                    results := st.results ++ [failedParentResult n] }) ∧
    (∀ (nodes : List LocationNode) (st : ImportState),
        (∀ n ∈ nodes, n.path ∈ D →
            alookup env.existingLocations n.path = none ∧
            ∃ pp, n.parentPath = some pp ∧ pp ∈ D) →
        (∀ p ∈ D, intOptTruthy (alookup st.idMap p) = false) →
        (∀ p ∈ D,
          intOptTruthy (alookup (runLocations env opts st nodes).idMap p) = false) ∧
        (∃ extra, (runLocations env opts st nodes).results = st.results ++ extra ∧
          extra.length = nodes.length ∧
          ∀ i (hi : i < nodes.length) (he : i < extra.length),
            (nodes.get ⟨i, hi⟩).path ∈ D →
            extra.get ⟨i, he⟩ = failedParentResult (nodes.get ⟨i, hi⟩)) ∧
        numCreateLoc (runLocations env opts st nodes).trace ≤
          numCreateLoc st.trace +
            (nodes.filter (fun n => decide (n.path ∉ D))).length) := by
  constructor
  · intro st n pp h1 hpp hfalsy
    exact stepLocation_parent_fail env opts st n h1
      (parentLookup_none_of_falsy st n pp hpp hfalsy)
  · intro nodes
    induction nodes with
    | nil =>
        intro st _ hst
        exact ⟨hst, ⟨[], by simp [runLocations], rfl, by intro i hi; cases hi⟩,
          by simp [runLocations]⟩
    | cons n nodes ih =>
        intro st hD hst
        have hrun : runLocations env opts st (n :: nodes) =
            runLocations env opts (stepLocation env opts st n) nodes := rfl
        by_cases hmem : n.path ∈ D
        · obtain ⟨hex, pp, hpp, hppD⟩ := hD n (List.mem_cons_self n nodes) hmem
          have hstep := stepLocation_parent_fail env opts st n hex
            (parentLookup_none_of_falsy st n pp hpp (hst pp hppD))
          have hst' : ∀ p ∈ D,
              intOptTruthy (alookup (stepLocation env opts st n).idMap p) = false := by
            intro p hp
            rw [hstep]
            exact hst p hp
          obtain ⟨ih1, ⟨extra, hres, hlen, hidx⟩, ih3⟩ :=
            ih (stepLocation env opts st n)
              (fun m hm => hD m (List.mem_cons_of_mem n hm)) hst'
          rw [hrun]
          refine ⟨ih1, ⟨failedParentResult n :: extra, ?_, ?_, ?_⟩, ?_⟩
          · rw [hres, hstep]
            simp
          · simp [hlen]
          · intro i hi he hpath
            cases i with
            | zero => rfl
            | succ i' =>
                exact hidx i' (Nat.lt_of_succ_lt_succ hi)
                  (Nat.lt_of_succ_lt_succ he) hpath
          · calc numCreateLoc (runLocations env opts (stepLocation env opts st n) nodes).trace
                ≤ numCreateLoc (stepLocation env opts st n).trace +
                    (nodes.filter (fun m => decide (m.path ∉ D))).length := ih3
              _ = numCreateLoc st.trace +
                    (nodes.filter (fun m => decide (m.path ∉ D))).length := by
                  rw [hstep]
              _ = numCreateLoc st.trace +
                    ((n :: nodes).filter (fun m => decide (m.path ∉ D))).length := by
                  rw [List.filter_cons]
                  simp [hmem]
        · have hst' : ∀ p ∈ D,
              intOptTruthy (alookup (stepLocation env opts st n).idMap p) = false := by
            intro p hp
            rcases stepLocation_idMap_cases env opts st n with hid | ⟨v, hid⟩
            · rw [hid]; exact hst p hp
            · rw [hid]
              have hne : n.path ≠ p := fun he => hmem (he ▸ hp)
              rw [intOptTruthy_alookup_aupsert_ne hne]
              exact hst p hp
          obtain ⟨ih1, ⟨extra, hres, hlen, hidx⟩, ih3⟩ :=
            ih (stepLocation env opts st n)
              (fun m hm => hD m (List.mem_cons_of_mem n hm)) hst'
          obtain ⟨_, r, hstep, _⟩ := stepLocation_summary_inv env opts st n
          rw [hrun]
          refine ⟨ih1, ⟨r :: extra, ?_, ?_, ?_⟩, ?_⟩
          · rw [hres, hstep]
            simp
          · simp [hlen]
          · intro i hi he hpath
            cases i with
            | zero => exact absurd hpath hmem
            | succ i' =>
                exact hidx i' (Nat.lt_of_succ_lt_succ hi)
                  (Nat.lt_of_succ_lt_succ he) hpath
          · calc numCreateLoc (runLocations env opts (stepLocation env opts st n) nodes).trace
                ≤ numCreateLoc (stepLocation env opts st n).trace +
                    (nodes.filter (fun m => decide (m.path ∉ D))).length := ih3
              _ ≤ (numCreateLoc st.trace + 1) +
                    (nodes.filter (fun m => decide (m.path ∉ D))).length :=
                  Nat.add_le_add_right (stepLocation_numCreateLoc_le env opts st n) _
              _ = numCreateLoc st.trace +
                    ((n :: nodes).filter (fun m => decide (m.path ∉ D))).length := by
                  rw [List.filter_cons]
                  simp [hmem]
                  omega

/-- Witness for C3 at a concrete dead chain below the unresolvable path
`A`. -/
theorem claim3_witness :
    intOptTruthy (alookup (runLocations scenario3Env scenario3Opts
      (initState scenario3Opts)
      [{ path := "A/X", name := "X", parentPath := some "A", meta := none }]).idMap
      "A") = false :=
  ((claim3_amended_parent_failure scenario3Env scenario3Opts ["A", "A/X"]).2
    [{ path := "A/X", name := "X", parentPath := some "A", meta := none }]
    (initState scenario3Opts)
    (by
      intro n hn hD
      rw [List.mem_singleton.mp hn]
      exact ⟨by decide, "A", rfl, by decide⟩)
    (by
      intro p hp
      simp only [List.mem_cons, List.mem_singleton, List.not_mem_nil,
        or_false] at hp
      rcases hp with rfl | rfl <;> decide)).1 "A" (by decide)

/-! ## Depth-sorted processing order -/

theorem pathDepth_lt_stepPath (cur name : String) (h : cur ≠ "") :
    pathDepth cur < pathDepth (stepPath cur name) := by
  unfold stepPath pathDepth
  rw [if_neg h, String.data_append, String.data_append]
  have hslash : ("/" : String).data = ['/'] := rfl
  rw [hslash]
  simp [List.count_append]

theorem mem_insertByDepth (n a : LocationNode) :
    ∀ l, a ∈ insertByDepth n l ↔ a = n ∨ a ∈ l := by
  intro l
  induction l with
  | nil => simp [insertByDepth]
  | cons m ms ih =>
      unfold insertByDepth
      split_ifs
      all_goals simp only [List.mem_cons, ih]
      all_goals tauto

/-- The depth order on nodes. -/
def depthLE (a b : LocationNode) : Prop :=
  pathDepth a.path ≤ pathDepth b.path

theorem pairwise_insertByDepth (n : LocationNode) :
    ∀ l, l.Pairwise depthLE → (insertByDepth n l).Pairwise depthLE := by
  intro l
  induction l with
  | nil => intro _; simp [insertByDepth, depthLE]
  | cons m ms ih =>
      intro hp
      obtain ⟨h1, h2⟩ := List.pairwise_cons.mp hp
      unfold insertByDepth
      split_ifs with hle
      · refine List.pairwise_cons.mpr ⟨?_, ih h2⟩
        intro b hb
        rcases (mem_insertByDepth n b ms).mp hb with rfl | hb
        · exact hle
        · exact h1 b hb
      · refine List.pairwise_cons.mpr ⟨?_, hp⟩
        intro b hb
        rcases List.mem_cons.mp hb with rfl | hb
        · exact Nat.le_of_lt (Nat.lt_of_not_le hle)
        · exact Nat.le_trans (Nat.le_of_lt (Nat.lt_of_not_le hle)) (h1 b hb)

theorem mem_sortFold (a : LocationNode) :
    ∀ (ns acc : List LocationNode),
      a ∈ ns.foldl (fun acc n => insertByDepth n acc) acc ↔ a ∈ ns ∨ a ∈ acc := by
  intro ns
  induction ns with
  | nil => intro acc; simp
  | cons n ns ih =>
      intro acc
      simp only [List.foldl_cons, ih, mem_insertByDepth, List.mem_cons]
      tauto

theorem mem_sortLocationsByDepth (a : LocationNode) (ns : List LocationNode) :
    a ∈ sortLocationsByDepth ns ↔ a ∈ ns := by
  unfold sortLocationsByDepth
  rw [mem_sortFold]
  simp

theorem pairwise_sortFold :
    ∀ (ns acc : List LocationNode), acc.Pairwise depthLE →
      (ns.foldl (fun acc n => insertByDepth n acc) acc).Pairwise depthLE := by
  intro ns
  induction ns with
  | nil => intro acc h; exact h
  | cons n ns ih =>
      intro acc h
      exact ih _ (pairwise_insertByDepth n acc h)

theorem pairwise_sortLocationsByDepth (ns : List LocationNode) :
    (sortLocationsByDepth ns).Pairwise depthLE :=
  pairwise_sortFold ns [] List.Pairwise.nil

/-- Every node of the path map points at a parent that is itself in the
map, at strictly smaller depth. -/
def parentClosed (ns : List LocationNode) : Prop :=
  ∀ n ∈ ns, ∀ pp, n.parentPath = some pp →
    (∃ m, m ∈ ns ∧ m.path = pp) ∧ pathDepth pp < pathDepth n.path

theorem addLevels_parentClosed (pcn : Bool) (meta : LocationMeta) :
    ∀ (ls : List HierarchyLevel) (cur : String) (ns : List LocationNode),
      (cur = "" ∨ ∃ m, m ∈ ns ∧ m.path = cur) →
      parentClosed ns →
      parentClosed (addLevels pcn meta cur ns ls) := by
  intro ls
  induction ls with
  | nil => intro cur ns _ hns; exact hns
  | cons l rest ih =>
      intro cur ns hcur hns
      unfold addLevels
      dsimp only
      split
      · next hm =>
          apply ih
          · right
            exact (pathMem_iff ns _).mp hm
          · exact hns
      · next hm =>
          apply ih
          · right
            refine ⟨_, List.mem_append_right _ (List.mem_singleton_self _), rfl⟩
          · intro n hn pp hpp
            rcases List.mem_append.mp hn with hn | hn
            · obtain ⟨⟨m, hm1, hm2⟩, hd⟩ := hns n hn pp hpp
              exact ⟨⟨m, List.mem_append_left _ hm1, hm2⟩, hd⟩
            · rw [List.mem_singleton.mp hn] at hpp ⊢
              dsimp only at hpp ⊢
              by_cases hc : cur = ""
              · rw [if_pos hc] at hpp
                cases hpp
              · rw [if_neg hc] at hpp
                have hppc : cur = pp := Option.some.inj hpp
                subst hppc
                constructor
                · rcases hcur with hcur | ⟨m, hm1, hm2⟩
                  · exact absurd hcur hc
                  · exact ⟨m, List.mem_append_left _ hm1, hm2⟩
                · exact pathDepth_lt_stepPath cur _ hc

theorem buildLocationPaths_parentClosed (pcn : Bool) (rows : List ParsedRow) :
    parentClosed (buildLocationPaths rows pcn) := by
  unfold buildLocationPaths
  have h : ∀ (rs : List ParsedRow) (ns : List LocationNode),
      parentClosed ns →
      parentClosed (rs.foldl
        (fun ns row =>
          if row.locationHierarchy.isEmpty then ns
          else addLevels pcn row.locationMeta "" ns row.locationHierarchy) ns) := by
    intro rs
    induction rs with
    | nil => intro ns h; exact h
    | cons r rs ih =>
        intro ns h
        simp only [List.foldl_cons]
        apply ih
        split
        · exact h
        · exact addLevels_parentClosed pcn r.locationMeta _ "" ns (Or.inl rfl) h
  exact h rows [] (by intro n hn; cases hn)

/-- In the depth-sorted node list every parent path occurs at an earlier
index. -/
theorem sorted_parent_before (pcn : Bool) (rows : List ParsedRow) :
    ∀ i (hi : i < (sortLocationsByDepth (buildLocationPaths rows pcn)).length)
      (pp : String),
      ((sortLocationsByDepth (buildLocationPaths rows pcn)).get ⟨i, hi⟩).parentPath
        = some pp →
      ∃ j, ∃ hj : j < (sortLocationsByDepth (buildLocationPaths rows pcn)).length,
        j < i ∧
        ((sortLocationsByDepth (buildLocationPaths rows pcn)).get ⟨j, hj⟩).path
          = pp := by
  intro i hi pp hpp
  have hmem : (sortLocationsByDepth (buildLocationPaths rows pcn)).get ⟨i, hi⟩ ∈
      sortLocationsByDepth (buildLocationPaths rows pcn) := List.get_mem _ _ _
  have hbuilt := (mem_sortLocationsByDepth _ _).mp hmem
  obtain ⟨⟨m, hm, hmp⟩, hdepth⟩ :=
    buildLocationPaths_parentClosed pcn rows _ hbuilt pp hpp
  have hmnodes : m ∈ sortLocationsByDepth (buildLocationPaths rows pcn) :=
    (mem_sortLocationsByDepth _ _).mpr hm
  obtain ⟨j, hget⟩ := List.mem_iff_get.mp hmnodes
  refine ⟨j.1, j.2, ?_, by rw [hget, hmp]⟩
  by_contra hle
  push_neg at hle
  have hpair := List.pairwise_iff_get.mp
    (pairwise_sortLocationsByDepth (buildLocationPaths rows pcn))
  rcases Nat.lt_or_ge i j.1 with hij | hij
  · have hrel := hpair ⟨i, hi⟩ j hij
    unfold depthLE at hrel
    rw [hget, hmp] at hrel
    omega
  · have hij2 : i = j.1 := by omega
    have heq : (sortLocationsByDepth (buildLocationPaths rows pcn)).get ⟨i, hi⟩ = m := by
      rw [← hget]
      congr 1
      exact Fin.ext hij2
    rw [heq, hmp] at hdepth
    omega

/-! ## The location phase under successful creates -/

theorem alookup_aupsert_self (m : List (String × α)) (k : String) (v : α) :
    alookup (aupsert m k v) k = some v := by
  rw [alookup_aupsert]
  simp

theorem parentLookup_root (st : ImportState) (n : LocationNode)
    (hpp : n.parentPath = none) : parentLookup st n = some none := by
  unfold parentLookup
  rw [hpp]

theorem parentLookup_some_of_truthy (st : ImportState) (n : LocationNode)
    (pp : String) (hpp : n.parentPath = some pp)
    (h : intOptTruthy (alookup st.idMap pp) = true) :
    ∃ v : Int, parentLookup st n = some (some v) := by
  unfold parentLookup
  rw [hpp]
  dsimp only
  cases halk : alookup st.idMap pp with
  | none => rw [halk] at h; simp [intOptTruthy] at h
  | some v =>
      rw [halk] at h
      simp only [intOptTruthy, bne_iff_ne, ne_eq] at h
      exact ⟨v, by dsimp only; rw [if_neg h]⟩

theorem locShapeOf_matched (env : Env) (n : LocationNode) (exId : Int)
    (hfind : alookup env.existingLocations n.path = some exId) :
    locShapeOf env n = (.location, .matched, n.name) := by
  unfold locShapeOf
  rw [hfind]
  rfl

theorem locShapeOf_created (env : Env) (n : LocationNode)
    (hfind : alookup env.existingLocations n.path = none) :
    locShapeOf env n = (.location, .created, n.name) := by
  unfold locShapeOf
  rw [hfind]
  rfl

theorem runLocations_ok (env : Env) (opts : ImportOptions)
    (hex : ∀ p v, alookup env.existingLocations p = some v → v ≠ 0)
    (hcr : opts.dryRun = true ∨ ∀ k, ∃ v, env.createLoc k = .ok v ∧ v ≠ 0) :
    ∀ (nodes : List LocationNode) (st : ImportState),
      (∀ i (hi : i < nodes.length) (pp : String),
          (nodes.get ⟨i, hi⟩).parentPath = some pp →
          intOptTruthy (alookup st.idMap pp) = true ∨
          ∃ j, ∃ hj : j < nodes.length, j < i ∧ (nodes.get ⟨j, hj⟩).path = pp) →
      ((runLocations env opts st nodes).results.map resShape =
        st.results.map resShape ++ nodes.map (locShapeOf env)) ∧
      (∀ p, intOptTruthy (alookup st.idMap p) = true →
        intOptTruthy (alookup (runLocations env opts st nodes).idMap p) = true) ∧
      (∀ n ∈ nodes,
        intOptTruthy (alookup (runLocations env opts st nodes).idMap n.path) = true) := by
  intro nodes
  induction nodes with
  | nil =>
      intro st _
      exact ⟨by simp [runLocations], fun p hp => hp, by intro n hn; cases hn⟩
  | cons n nodes ih =>
      intro st hord
      have hfacts : ∃ r v, v ≠ 0 ∧
          (stepLocation env opts st n).results = st.results ++ [r] ∧
          resShape r = locShapeOf env n ∧
          (stepLocation env opts st n).idMap = aupsert st.idMap n.path v := by
        cases hfind : alookup env.existingLocations n.path with
        | some exId =>
            refine ⟨matchedResult n exId, exId, hex _ _ hfind, ?_, ?_, ?_⟩
            · rw [stepLocation_matched env opts st n exId hfind]
            · rw [locShapeOf_matched env n exId hfind]
              rfl
            · rw [stepLocation_matched env opts st n exId hfind]
        | none =>
            have hpl : ∃ pid, parentLookup st n = some pid := by
              cases hpp : n.parentPath with
              | none => exact ⟨none, parentLookup_root st n hpp⟩
              | some pp =>
                  rcases hord 0 (Nat.succ_pos _) pp hpp with htr |
                    ⟨j, hj, hjlt, _⟩
                  · obtain ⟨v, hv⟩ := parentLookup_some_of_truthy st n pp hpp htr
                    exact ⟨some v, hv⟩
                  · exact absurd hjlt (Nat.not_lt_zero j)
            obtain ⟨pid, hpid⟩ := hpl
            cases hdry : opts.dryRun with
            | true =>
                refine ⟨dryCreatedResult n, -1, by decide, ?_, ?_, ?_⟩
                · rw [stepLocation_dry env opts st n pid hfind hpid hdry]
                · rw [locShapeOf_created env n hfind]
                  rfl
                · rw [stepLocation_dry env opts st n pid hfind hpid hdry]
            | false =>
                rcases hcr with hcontra | hsucc
                · rw [hcontra] at hdry; cases hdry
                · obtain ⟨v, hv, hvne⟩ := hsucc st.locCreateCalls
                  refine ⟨createdResult n v, v, hvne, ?_, ?_, ?_⟩
                  · rw [stepLocation_real_ok env opts st n pid v hfind hpid hdry hv]
                  · rw [locShapeOf_created env n hfind]
                    rfl
                  · rw [stepLocation_real_ok env opts st n pid v hfind hpid hdry hv]
      obtain ⟨r, v, hvne, hres, hshape, hid⟩ := hfacts
      have hord' : ∀ i (hi : i < nodes.length) (pp : String),
          (nodes.get ⟨i, hi⟩).parentPath = some pp →
          intOptTruthy (alookup (stepLocation env opts st n).idMap pp) = true ∨
          ∃ j, ∃ hj : j < nodes.length, j < i ∧ (nodes.get ⟨j, hj⟩).path = pp := by
        intro i hi pp hpp
        rcases hord (i + 1) (Nat.succ_lt_succ hi) pp hpp with htr |
          ⟨j, hj, hjlt, hjpath⟩
        · left
          rw [hid]
          exact intOptTruthy_alookup_aupsert hvne htr
        · cases j with
          | zero =>
              left
              rw [hid]
              have hnp : n.path = pp := hjpath
              rw [← hnp, alookup_aupsert_self]
              simp [intOptTruthy, hvne]
          | succ jp =>
              right
              exact ⟨jp, Nat.lt_of_succ_lt_succ hj,
                Nat.lt_of_succ_lt_succ hjlt, hjpath⟩
      obtain ⟨ihshape, ihpres, ihall⟩ := ih (stepLocation env opts st n) hord'
      have hrun : runLocations env opts st (n :: nodes) =
          runLocations env opts (stepLocation env opts st n) nodes := rfl
      refine ⟨?_, ?_, ?_⟩
      · rw [hrun, ihshape, hres]
        simp [hshape]
      · intro p hp
        rw [hrun]
        apply ihpres
        rw [hid]
        exact intOptTruthy_alookup_aupsert hvne hp
      · intro m hm
        rcases List.mem_cons.mp hm with rfl | hm
        · rw [hrun]
          apply ihpres
          rw [hid, alookup_aupsert_self]
          simp [intOptTruthy, hvne]
        · rw [hrun]
          exact ihall m hm

/-! ## The device phase under successful creates -/

theorem stepDevice_skip (env : Env) (opts : ImportOptions)
    (tm : List (String × TemplateInfo)) (st : ImportState) (row : ParsedRow)
    (h : jsTruthyS row.device.hardware_id = false) :
    stepDevice env opts tm st row = st := by
  unfold stepDevice
  rw [if_pos (by simp [h])]

theorem stepDevice_idMap (env : Env) (opts : ImportOptions)
    (tm : List (String × TemplateInfo)) (st : ImportState) (row : ParsedRow) :
    (stepDevice env opts tm st row).idMap = st.idMap := by
  unfold stepDevice
  dsimp only
  repeat' split
  all_goals rfl

theorem stepDevice_created_shape (env : Env) (opts : ImportOptions)
    (tm : List (String × TemplateInfo)) (st : ImportState) (row : ParsedRow)
    (h1 : jsTruthyS row.device.hardware_id = true)
    (hok : opts.dryRun = true ∨
      ((jsTruthyS (getDeepestLocationPath row opts.prefixLocationName) = true →
        intOptTruthy (alookup st.idMap
          ((getDeepestLocationPath row opts.prefixLocationName).getD "")) = true) ∧
       ∀ k, ∃ x, env.createDev k = .ok x)) :
    ∃ r, (stepDevice env opts tm st row).results = st.results ++ [r] ∧
      resShape r = devShapeOf row := by
  unfold stepDevice
  rw [if_neg (by simp [h1])]
  dsimp only
  cases hdry : opts.dryRun with
  | true =>
      rw [if_neg (by simp), if_pos rfl]
      exact ⟨deviceDryCreatedResult row, rfl, rfl⟩
  | false =>
      rcases hok with hcontra | ⟨hloc, hdev⟩
      · rw [hcontra] at hdry; cases hdry
      · have hguard : ¬ (jsTruthyS (getDeepestLocationPath row opts.prefixLocationName) = true ∧
            ¬ intOptTruthy (if jsTruthyS (getDeepestLocationPath row opts.prefixLocationName) = true
              then alookup st.idMap ((getDeepestLocationPath row opts.prefixLocationName).getD "")
              else none) = true ∧
            ¬ false = true) := by
          rintro ⟨hp, hid, _⟩
          rw [if_pos hp] at hid
          exact hid (hloc hp)
        rw [if_neg hguard, if_neg (by simp)]
        obtain ⟨⟨devId, devProps⟩, hx⟩ := hdev st.devCreateCalls
        rw [hx]
        dsimp only
        split
        · split
          · exact ⟨_, rfl, rfl⟩
          · exact ⟨_, rfl, rfl⟩
        · exact ⟨_, rfl, rfl⟩

theorem runDevices_shapes (env : Env) (opts : ImportOptions)
    (tm : List (String × TemplateInfo))
    (hdev : opts.dryRun = true ∨ ∀ k, ∃ x, env.createDev k = .ok x) :
    ∀ (rows : List ParsedRow) (st : ImportState),
      (∀ r ∈ rows, jsTruthyS r.device.hardware_id = true →
        jsTruthyS (getDeepestLocationPath r opts.prefixLocationName) = true →
        intOptTruthy (alookup st.idMap
          ((getDeepestLocationPath r opts.prefixLocationName).getD "")) = true) →
      (runDevices env opts tm st rows).results.map resShape =
        st.results.map resShape ++
          (rows.filter (fun r => jsTruthyS r.device.hardware_id)).map devShapeOf := by
  intro rows
  induction rows with
  | nil => intro st _; simp [runDevices]
  | cons row rows ih =>
      intro st hloc
      have hrun : runDevices env opts tm st (row :: rows) =
          runDevices env opts tm (stepDevice env opts tm st row) rows := rfl
      have hloc' : ∀ r ∈ rows, jsTruthyS r.device.hardware_id = true →
          jsTruthyS (getDeepestLocationPath r opts.prefixLocationName) = true →
          intOptTruthy (alookup (stepDevice env opts tm st row).idMap
            ((getDeepestLocationPath r opts.prefixLocationName).getD "")) = true := by
        intro r hr h1 h2
        rw [stepDevice_idMap]
        exact hloc r (List.mem_cons_of_mem _ hr) h1 h2
      cases hhw : jsTruthyS row.device.hardware_id with
      | false =>
          rw [hrun, stepDevice_skip env opts tm st row hhw, ih st
            (fun r hr => hloc r (List.mem_cons_of_mem _ hr))]
          rw [List.filter_cons]
          simp [hhw]
      | true =>
          have hok : opts.dryRun = true ∨
              ((jsTruthyS (getDeepestLocationPath row opts.prefixLocationName) = true →
                intOptTruthy (alookup st.idMap
                  ((getDeepestLocationPath row opts.prefixLocationName).getD "")) = true) ∧
               ∀ k, ∃ x, env.createDev k = .ok x) := by
            rcases hdev with hd | hd
            · exact Or.inl hd
            · exact Or.inr ⟨hloc row (List.mem_cons_self _ _) hhw, hd⟩
          obtain ⟨r, hres, hshape⟩ :=
            stepDevice_created_shape env opts tm st row hhw hok
          rw [hrun, ih (stepDevice env opts tm st row) hloc', hres]
          rw [List.filter_cons]
          simp [hhw, hshape]

theorem hierarchy_ne_of_truthy_path (r : ParsedRow) (pcn : Bool)
    (h : jsTruthyS (getDeepestLocationPath r pcn) = true) :
    r.locationHierarchy ≠ [] := by
  intro hemp
  unfold getDeepestLocationPath at h
  rw [if_pos (by simp [hemp])] at h
  cases h

/-! ## C1: dry run mirrors the real run -/

theorem bulkImport_results_shape (rows : List ParsedRow) (opts : ImportOptions)
    (env : Env)
    (hex : ∀ p v, alookup env.existingLocations p = some v → v ≠ 0)
    (hcr : opts.dryRun = true ∨ ∀ k, ∃ v, env.createLoc k = .ok v ∧ v ≠ 0)
    (hdev : opts.dryRun = true ∨ ∀ k, ∃ x, env.createDev k = .ok x)
    (hc : ¬ (jsTruthyS opts.deviceTypeId ∧
      ¬ (deviceTypeMismatches rows (opts.deviceTypeId.getD "")).isEmpty)) :
    runShape (bulkImport rows opts env) = .ok
      ((sortLocationsByDepth (buildLocationPaths rows opts.prefixLocationName)).map
          (locShapeOf env) ++
        (rows.filter (fun r => jsTruthyS r.device.hardware_id)).map devShapeOf) := by
  obtain ⟨hshape1, hpres1, hall1⟩ :=
    runLocations_ok env opts hex hcr
      (sortLocationsByDepth (buildLocationPaths rows opts.prefixLocationName))
      (initState opts)
      (fun i hi pp hpp =>
        Or.inr (sorted_parent_before opts.prefixLocationName rows i hi pp hpp))
  unfold bulkImport
  rw [if_neg hc]
  unfold runShape
  dsimp only [Except.map]
  refine congrArg Except.ok ?_
  rw [runDevices_shapes env opts
    (buildTemplateMap env (templateIdsOf rows)) hdev rows _ ?hloc]
  case hloc =>
    intro r hr h1 h2
    dsimp only
    have hne := hierarchy_ne_of_truthy_path r opts.prefixLocationName h2
    obtain ⟨m, hm, hmp⟩ :=
      buildLocationPaths_deepest_mem opts.prefixLocationName rows r hr hne
    have hmnodes : m ∈ sortLocationsByDepth
        (buildLocationPaths rows opts.prefixLocationName) :=
      (mem_sortLocationsByDepth _ _).mpr hm
    have htr := hall1 m hmnodes
    rw [getDeepest_eq_joinFrom opts.prefixLocationName r hne]
    simp only [Option.getD_some]
    rw [← hmp]
    exact htr
  · dsimp only
    rw [hshape1]
    simp [initState]

/-- C1 (counterexample to the claim as stated): when a location create call
fails, the dry run reports `created` where the real run reports `failed`,
so the (type, action, name) sequences differ. -/
theorem claim1_counterexample :
    runShape (bulkImport [scenario3Row] { scenario3Opts with dryRun := true }
      scenario3Env) ≠
    runShape (bulkImport [scenario3Row] { scenario3Opts with dryRun := false }
      scenario3Env) := by decide

/-- C1 (amended): for a fixed remote state whose existing-location ids are
nonzero and whose create calls all succeed with nonzero ids, the dry run
and the real run produce result lists with identical (type, action, name)
sequences; only remote ids and external side effects differ.  (When a
create call fails, the real run records `failed` where the dry run records
`created`.) -/
theorem claim1_amended_dry_real_shape_eq (rows : List ParsedRow)
    (opts : ImportOptions) (env : Env)
    (hex : ∀ p v, alookup env.existingLocations p = some v → v ≠ 0)
    (hloc : ∀ k, ∃ v, env.createLoc k = .ok v ∧ v ≠ 0)
    (hdev : ∀ k, ∃ x, env.createDev k = .ok x) :
    runShape (bulkImport rows { opts with dryRun := true } env) =
      runShape (bulkImport rows { opts with dryRun := false } env) := by
  by_cases hc : jsTruthyS opts.deviceTypeId ∧
      ¬ (deviceTypeMismatches rows (opts.deviceTypeId.getD "")).isEmpty
  · unfold bulkImport
    dsimp only
    rw [if_pos hc, if_pos hc]
  · rw [bulkImport_results_shape rows { opts with dryRun := true } env hex
      (Or.inl rfl) (Or.inl rfl) hc]
    rw [bulkImport_results_shape rows { opts with dryRun := false } env hex
      (Or.inr hloc) (Or.inr hdev) hc]

/-- Witness for C1: two rows, a shared site prefix, all creates succeeding. -/
theorem claim1_witness :
    runShape (bulkImport scenario1Rows
      { ({} : ImportOptions) with dryRun := true } scenario1Env) =
    runShape (bulkImport scenario1Rows
      { ({} : ImportOptions) with dryRun := false } scenario1Env) :=
  claim1_amended_dry_real_shape_eq scenario1Rows {} scenario1Env
    (by
      intro p v h
      simp only [scenario1Env, alookup] at h
      split_ifs at h with hp
      have hv := Option.some.inj h
      omega)
    (fun k => ⟨Int.ofNat k + 10, rfl, by
      simp only [Int.ofNat_eq_natCast]
      omega⟩)
    (fun k => ⟨(Int.ofNat k + 100, []), rfl⟩)

end MD
